import Mathlib

/-!
Shallow embedding of the Soccer Slot Manager application (src/app/main.py and
src/app/models.py) in Lean 4, together with theorems settling the frozen
claims about its specification.

Modelling conventions:
* Python `datetime` values are modelled at second granularity by `Datetime`:
  an absolute day index `day` (with weekday `day % 7`, 0 = Monday, matching
  Python's `date.weekday()`) plus hour / minute / second fields.  The
  endpoints' `datetime.now()` calls are modelled by passing `now` explicitly.
* The MongoDB collections (Slots, Users, InvitationTokens) are modelled as
  lists inside a `DB` record.  `find_one` is first-match lookup, `update_one`
  rewrites the first matching document, `delete_one` erases the first match,
  `insert_one` appends.
* Each HTTP handler becomes a function `DB → … → DB × Except ApiError R`:
  the returned `DB` reflects every write performed before a raise (faithful
  to the fact that an `HTTPException` aborts the request but not earlier
  database writes), and the `Except` value is the response or the error.
* Python string operations `str.split` and `str.startswith`, used by the
  unregister endpoint to parse guest display names, are re-implemented over
  `List Char` (`pySplit`, `pyStartsWith`) so that they compute by structural
  recursion; `String.splitOn` agrees on these inputs but does not reduce in
  the kernel.
* Identifiers produced effectfully by the source (the md5-derived
  `guest_id` in `register_guest`, MongoDB's generated `_id` in `signup`)
  are modelled as explicit arguments.
-/

namespace SoccerSlotManager

/-- Datetime models Python `datetime` at second granularity.  `day` is an
absolute day count whose residue mod 7 is the Python weekday
(0 = Monday … 6 = Sunday). -/
structure Datetime where
  day : Nat
  hour : Nat
  minute : Nat
  second : Nat
deriving DecidableEq, Repr

/-- Python `datetime.weekday()`: 0 = Monday, …, 2 = Wednesday, 6 = Sunday. -/
def Datetime.weekday (t : Datetime) : Nat := t.day % 7

/-- Python `d + timedelta(days = k)`. -/
def Datetime.addDays (t : Datetime) (k : Nat) : Datetime :=
  { t with day := t.day + k }

/-- Python `d.replace(hour := h, minute := m, second := s, microsecond := 0)`. -/
def Datetime.replaceTime (t : Datetime) (h m s : Nat) : Datetime :=
  ⟨t.day, h, m, s⟩

/-- Total second count of a `Datetime`, used to compare instants the way
Python compares `datetime` values. -/
def Datetime.ticks (t : Datetime) : Nat :=
  ((t.day * 24 + t.hour) * 60 + t.minute) * 60 + t.second

/-- MAX_PLAYERS constant from src/app/main.py. -/
def MAX_PLAYERS : Nat := 10

/-- MATCH_HOUR constant from src/app/main.py. -/
def MATCH_HOUR : Nat := 19

/-- MATCH_MINUTE constant from src/app/main.py. -/
def MATCH_MINUTE : Nat := 0

/-- MATCH_DAY constant from src/app/main.py (2 = Wednesday). -/
def MATCH_DAY : Nat := 2

/-- Embedding of `get_next_wednesday_at_19` from src/app/main.py, with the
implicit `datetime.now()` passed explicitly.  If today is Wednesday and the
hour is strictly before 19, today at 19:00; otherwise the date `days_ahead`
days later at 19:00, where `days_ahead = MATCH_DAY - weekday`, bumped by 7
when non-positive. -/
def get_next_wednesday_at_19 (now : Datetime) : Datetime :=
  if now.weekday == MATCH_DAY && now.hour < MATCH_HOUR then
    now.replaceTime MATCH_HOUR MATCH_MINUTE 0
  else
    let days_ahead : Int := (MATCH_DAY : Int) - (now.weekday : Int)
    let days_ahead := if days_ahead ≤ 0 then days_ahead + 7 else days_ahead
    (now.addDays days_ahead.toNat).replaceTime MATCH_HOUR MATCH_MINUTE 0

/-- Embedding of `is_registration_open` from src/app/main.py, with the
implicit `datetime.now()` passed explicitly: Monday (weekday 0) at hour ≥ 12,
Tuesday (weekday 1) all day, or Wednesday (weekday 2) at hour < 20. -/
def is_registration_open (now : Datetime) : Bool :=
  if now.weekday == 0 && now.hour ≥ 12 then true
  else if now.weekday == 1 then true
  else if now.weekday == 2 && now.hour < 20 then true
  else false

/-- Python `s.startswith(pre)` over explicit character lists. -/
def listStartsWith : List Char → List Char → Bool
  | _, [] => true
  | [], _ :: _ => false
  | a :: as, b :: bs => a == b && listStartsWith as bs

/-- Worker for `pySplit`: scans the input left to right, splitting at each
non-overlapping occurrence of `sep`.  The fuel argument (instantiated with
the input length, an upper bound on the number of steps) makes the recursion
structural so that it reduces in the kernel. -/
def splitOnFuel (sep : List Char) : Nat → List Char → List Char → List (List Char)
  | 0, s, acc => [acc.reverse ++ s]
  | _ + 1, [], acc => [acc.reverse]
  | n + 1, c :: rest, acc =>
    if listStartsWith (c :: rest) sep then
      acc.reverse :: splitOnFuel sep n ((c :: rest).drop sep.length) []
    else
      splitOnFuel sep n rest (c :: acc)

/-- Python `s.split(sep)` for a non-empty separator. -/
def pySplit (s sep : String) : List String :=
  (splitOnFuel sep.data s.data.length s.data []).map (fun l => String.mk l)

/-- Python `s.startswith(pre)`. -/
def pyStartsWith (s pre : String) : Bool := listStartsWith s.data pre.data

/-- Entries of a slot's `players` array: documents
`{user_id, username, registeredAt}` pushed by `register_player`. -/
structure PlayerEntry where
  user_id : String
  username : String
  registeredAt : Datetime
deriving DecidableEq, Repr

/-- Entries of a slot's `guests` array: documents
`{guest_id, name, invitedBy_id, invitedBy, registeredAt}` pushed by
`register_guest`. -/
structure GuestEntry where
  guest_id : String
  name : String
  invitedBy_id : String
  invitedBy : String
  registeredAt : Datetime
deriving DecidableEq, Repr

/-- One document of the Slots collection.  Freshly created slots carry empty
teams and absent scores (the Python dict omits the keys; every later read
uses `slot.get(key, default)`, which this record models directly). -/
structure Slot where
  date : Datetime
  players : List PlayerEntry
  guests : List GuestEntry
  teamA : List String
  teamB : List String
  teamAScore : Option Nat
  teamBScore : Option Nat
deriving DecidableEq, Repr

/-- User roles stored in the Users collection. -/
inductive Role
  | user
  | admin
deriving DecidableEq, Repr

/-- One document of the Users collection.  `_id` models `str(doc["_id"])`. -/
structure User where
  _id : String
  username : String
  pin : String
  role : Role
  invitedBy : Option String
deriving DecidableEq, Repr

/-- One document of the InvitationTokens collection. -/
structure InvitationToken where
  token : String
  createdBy : String
  expiresAt : Datetime
deriving DecidableEq, Repr

/-- Full database state: the three MongoDB collections used by the app. -/
structure DB where
  slots : List Slot
  users : List User
  invitations : List InvitationToken
deriving DecidableEq, Repr

/-- Typed counterparts of the `HTTPException`s raised in src/app/main.py. -/
inductive ApiError
  | registrationClosed
  | authRequired
  | slotFull
  | alreadyRegistered
  | duplicateGuestName
  | forbidden
  | invalidGuestNameFormat
  | playerNotFound
  | slotNotFound
  | invalidPin
  | usernameTaken
  | tokenNotFound
  | tokenExpired
  | adminRequired
  | teamASizeInvalid
  | teamBSizeInvalid
  | teamsOverlap
  | unknownTeamId (id : String)
deriving DecidableEq, Repr

/-- Team roster entries of the response: dicts `{id, name, type}` built when
an endpoint resolves a stored team id against the slot's occupants. -/
structure TeamMember where
  id : String
  name : String
  type : String
deriving DecidableEq, Repr

/-- Embedding of the `SlotResponse` pydantic model (src/app/models.py); the
`date` and `timestamps` fields keep `Datetime` values where the source
serialises with `isoformat()`. -/
structure SlotResponse where
  date : Datetime
  players : List String
  player_count : Nat
  max_players : Nat
  timestamps : List Datetime
  teamA : List TeamMember
  teamB : List TeamMember
  teamAScore : Option Nat
  teamBScore : Option Nat
  isRegistrationOpen : Bool
deriving DecidableEq, Repr

/-- Mongo `find_one({"date": d})` over the Slots collection: first match. -/
def findSlot (db : DB) (d : Datetime) : Option Slot :=
  db.slots.find? (fun s => s.date == d)

/-- Mongo `find_one({"username": u})` over the Users collection. -/
def findUser (db : DB) (username : String) : Option User :=
  db.users.find? (fun u => u.username == username)

/-- Mongo `find_one({"username": u, "role": "admin"})`: the admin check used
by every admin-only endpoint. -/
def findAdmin (db : DB) (username : String) : Option User :=
  db.users.find? (fun u => u.username == username && u.role == Role.admin)

/-- Mongo `update_one({"date": d}, …)`: rewrites the first slot with the
given date, leaving every other document unchanged. -/
def updateSlotList (d : Datetime) (f : Slot → Slot) : List Slot → List Slot
  | [] => []
  | s :: rest => if s.date == d then f s :: rest else s :: updateSlotList d f rest

/-- Database after a `update_one` on the Slots collection. -/
def updateSlot (db : DB) (d : Datetime) (f : Slot → Slot) : DB :=
  { db with slots := updateSlotList d f db.slots }

/-- Fresh slot document inserted when no slot exists for the target date. -/
def newSlot (d : Datetime) : Slot :=
  ⟨d, [], [], [], [], none, none⟩

/-- Display string for a guest, as produced by every response formatter in
src/app/main.py. -/
def guestDisplay (g : GuestEntry) : String :=
  "(Invité) " ++ g.name ++ " [par " ++ g.invitedBy ++ "]"

/-- Combined display list `players_list + guests_list` of a slot. -/
def slotDisplayNames (s : Slot) : List String :=
  s.players.map (fun p => p.username) ++ s.guests.map guestDisplay

/-- Combined timestamp list of a slot (players first, then guests). -/
def slotTimestamps (s : Slot) : List Datetime :=
  s.players.map (fun p => p.registeredAt) ++ s.guests.map (fun g => g.registeredAt)

/-- Resolution of a stored team id list against the slot's occupants, as in
the `teamA_details` / `teamB_details` loops of src/app/main.py: each id is
looked up first among players by `user_id`, then among guests by `guest_id`;
unresolvable ids are skipped. -/
def resolveTeam (s : Slot) (ids : List String) : List TeamMember :=
  ids.filterMap (fun pid =>
    match s.players.find? (fun p => p.user_id == pid) with
    | some p => some ⟨pid, p.username, "user"⟩
    | none =>
      match s.guests.find? (fun g => g.guest_id == pid) with
      | some g => some ⟨pid, "(Invité) " ++ g.name, "guest"⟩
      | none => none)

/-- Embedding of the `GET /api/current-slot` handler `get_current_slot`:
finds or lazily creates the slot for the next Wednesday 19:00 and assembles
the display response, resolving the stored team rosters. -/
def get_current_slot (now : Datetime) (db : DB) (test_registration_open : Option Bool) :
    DB × SlotResponse :=
  let target_date := get_next_wednesday_at_19 now
  let found := findSlot db target_date
  let db1 := match found with
    | some _ => db
    | none => { db with slots := db.slots ++ [newSlot target_date] }
  let slot_doc := match found with
    | some s => s
    | none => newSlot target_date
  let all_players := slotDisplayNames slot_doc
  let registration_open := test_registration_open.getD (is_registration_open now)
  (db1,
   { date := slot_doc.date
     players := all_players
     player_count := all_players.length
     max_players := MAX_PLAYERS
     timestamps := slotTimestamps slot_doc
     teamA := resolveTeam slot_doc slot_doc.teamA
     teamB := resolveTeam slot_doc slot_doc.teamB
     teamAScore := slot_doc.teamAScore
     teamBScore := slot_doc.teamBScore
     isRegistrationOpen := registration_open })

/-- Embedding of the `POST /api/register` handler `register_player`.  Checks
in source order: registration window, user lookup, (slot find-or-create),
capacity, duplicate `user_id`; then pushes `{user_id, username, now}` onto
`players` and re-reads the slot for the response, whose team rosters are the
literal empty lists of the source.  The unreachable re-read-failure branch
(the slot was just written) is mapped to `slotNotFound`. -/
def register_player (now : Datetime) (db : DB) (username : String) :
    DB × Except ApiError SlotResponse :=
  if !(is_registration_open now) then (db, .error .registrationClosed)
  else
    match findUser db username with
    | none => (db, .error .authRequired)
    | some user =>
      let target_date := get_next_wednesday_at_19 now
      let found := findSlot db target_date
      let db1 := match found with
        | some _ => db
        | none => { db with slots := db.slots ++ [newSlot target_date] }
      let slot := match found with
        | some s => s
        | none => newSlot target_date
      let total_registered := slot.players.length + slot.guests.length
      if total_registered ≥ MAX_PLAYERS then (db1, .error .slotFull)
      else
        let player_ids := slot.players.map (fun p => p.user_id)
        if player_ids.contains user._id then (db1, .error .alreadyRegistered)
        else
          let db2 := updateSlot db1 target_date (fun s =>
            { s with players := s.players ++ [⟨user._id, username, now⟩] })
          match findSlot db2 target_date with
          | none => (db2, .error .slotNotFound)
          | some updated_slot =>
            (db2,
             .ok { date := updated_slot.date
                   players := slotDisplayNames updated_slot
                   player_count := updated_slot.players.length + updated_slot.guests.length
                   max_players := MAX_PLAYERS
                   timestamps := slotTimestamps updated_slot
                   teamA := []
                   teamB := []
                   teamAScore := updated_slot.teamAScore
                   teamBScore := updated_slot.teamBScore
                   isRegistrationOpen := is_registration_open now })

/-- Embedding of the `POST /api/register-guest` handler `register_guest`.
Checks in source order: registration window, user lookup, (slot
find-or-create), capacity, duplicate guest name; then pushes the guest entry.
The md5-derived fresh identifier of the source is modelled by the explicit
`guest_id` argument.  The response's team rosters are the literal empty
lists of the source. -/
def register_guest (now : Datetime) (db : DB) (guestName username guest_id : String) :
    DB × Except ApiError SlotResponse :=
  if !(is_registration_open now) then (db, .error .registrationClosed)
  else
    match findUser db username with
    | none => (db, .error .authRequired)
    | some user =>
      let target_date := get_next_wednesday_at_19 now
      let found := findSlot db target_date
      let db1 := match found with
        | some _ => db
        | none => { db with slots := db.slots ++ [newSlot target_date] }
      let slot := match found with
        | some s => s
        | none => newSlot target_date
      let total_registered := slot.players.length + slot.guests.length
      if total_registered ≥ MAX_PLAYERS then (db1, .error .slotFull)
      else
        let existing_guests := slot.guests.map (fun g => g.name)
        if existing_guests.contains guestName then (db1, .error .duplicateGuestName)
        else
          let db2 := updateSlot db1 target_date (fun s =>
            { s with guests := s.guests ++ [⟨guest_id, guestName, user._id, username, now⟩] })
          match findSlot db2 target_date with
          | none => (db2, .error .slotNotFound)
          | some updated_slot =>
            (db2,
             .ok { date := updated_slot.date
                   players := slotDisplayNames updated_slot
                   player_count := updated_slot.players.length + updated_slot.guests.length
                   max_players := MAX_PLAYERS
                   timestamps := slotTimestamps updated_slot
                   teamA := []
                   teamB := []
                   teamAScore := updated_slot.teamAScore
                   teamBScore := updated_slot.teamBScore
                   isRegistrationOpen := is_registration_open now })

/-- Guest-name recovery used by the unregister endpoint:
`player_name.split("(Invité) ")[1].split(" [par ")[0]`, with the IndexError
of a missing index 1 mapped to `none`. -/
def parseGuestTarget (player_name : String) : Option String :=
  match (pySplit player_name "(Invité) ").get? 1 with
  | none => none
  | some rest => some ((pySplit rest " [par ").headD "")

/-- Embedding of the `DELETE /api/unregister/{player_name}` handler
`unregister_player`.  The target is resolved first against players by
username; the first matching player decides authorization (admin or the
player themself), and the `$pull` removes every player whose username
matches.  Only when no player matches and the name starts with `(Invité)`
is the guest branch tried, parsing the display name back to a raw guest
name; the first matching guest decides authorization (admin or the original
inviter) and the `$pull` removes every guest with that name.  The success
response of the source omits the team fields, so they take the pydantic
defaults (empty rosters, absent scores, `isRegistrationOpen = true`). -/
def unregister_player (now : Datetime) (db : DB) (player_name username : String) :
    DB × Except ApiError SlotResponse :=
  match findUser db username with
  | none => (db, .error .authRequired)
  | some user =>
    let target_date := get_next_wednesday_at_19 now
    match findSlot db target_date with
    | none => (db, .error .slotNotFound)
    | some slot =>
      let is_admin := user.role == Role.admin
      let step1 : DB × Except ApiError Bool :=
        match slot.players.find? (fun p => p.username == player_name) with
        | some player =>
          if is_admin || player.user_id == user._id then
            (updateSlot db target_date (fun s =>
               { s with players := s.players.filter (fun p => !(p.username == player_name)) }),
             .ok true)
          else (db, .error .forbidden)
        | none => (db, .ok false)
      match step1 with
      | (dbe, .error e) => (dbe, .error e)
      | (db1, .ok player_found) =>
        let step2 : DB × Except ApiError Bool :=
          if !player_found && pyStartsWith player_name "(Invité)" then
            match parseGuestTarget player_name with
            | none => (db1, .error .invalidGuestNameFormat)
            | some guest_name =>
              match slot.guests.find? (fun g => g.name == guest_name) with
              | some guest =>
                if is_admin || guest.invitedBy_id == user._id then
                  (updateSlot db1 target_date (fun s =>
                     { s with guests := s.guests.filter (fun g => !(g.name == guest_name)) }),
                   .ok true)
                else (db1, .error .forbidden)
              | none => (db1, .ok false)
          else (db1, .ok player_found)
        match step2 with
        | (dbe, .error e) => (dbe, .error e)
        | (db2, .ok found) =>
          if !found then (db2, .error .playerNotFound)
          else
            match findSlot db2 target_date with
            | none => (db2, .error .slotNotFound)
            | some updated_slot =>
              (db2,
               .ok { date := updated_slot.date
                     players := slotDisplayNames updated_slot
                     player_count := updated_slot.players.length + updated_slot.guests.length
                     max_players := MAX_PLAYERS
                     timestamps := slotTimestamps updated_slot
                     teamA := []
                     teamB := []
                     teamAScore := none
                     teamBScore := none
                     isRegistrationOpen := true })

/-- Python `s.isdigit()` restricted to ASCII digits. -/
def pyIsDigit (s : String) : Bool :=
  !s.data.isEmpty && s.data.all Char.isDigit

/-- Embedding of the `POST /api/auth/signup` handler `signup`.  Checks in
source order: pin is exactly 4 digits, username unused, token exists, token
not expired (`now > expiresAt` fails); then inserts the new user — whose
`invitedBy` is the id of the token's creator when that user still exists —
and deletes the first invitation document carrying the token string.  The
database-generated id of the new user is modelled by `new_id`. -/
def signup (now : Datetime) (db : DB) (username pin inviteToken new_id : String) :
    DB × Except ApiError Unit :=
  if !(pin.length == 4) || !(pyIsDigit pin) then (db, .error .invalidPin)
  else if (db.users.find? (fun u => u.username == username)).isSome then
    (db, .error .usernameTaken)
  else
    match db.invitations.find? (fun t => t.token == inviteToken) with
    | none => (db, .error .tokenNotFound)
    | some token_doc =>
      if token_doc.expiresAt.ticks < now.ticks then (db, .error .tokenExpired)
      else
        let admin := db.users.find? (fun u => u.username == token_doc.createdBy)
        let new_user : User := ⟨new_id, username, pin, Role.user, admin.map (fun a => a._id)⟩
        let db1 := { db with users := db.users ++ [new_user] }
        let db2 := { db1 with
                     invitations := db1.invitations.eraseP (fun t => t.token == inviteToken) }
        (db2, .ok ())

/-- Embedding of the `POST /api/admin/set-teams` handler
`set_team_composition`.  Checks in source order: admin lookup, team sizes
(each exactly 5), distinctness of the union (Python `len(set(a+b)) != 10`),
slot existence, and membership of every id among the slot's registered
`user_id`s and `guest_id`s (first offending id reported); then overwrites
`teamA`/`teamB` and returns the full response with resolved rosters. -/
def set_team_composition (now : Datetime) (db : DB) (teamA teamB : List String)
    (admin_username : String) : DB × Except ApiError SlotResponse :=
  match findAdmin db admin_username with
  | none => (db, .error .adminRequired)
  | some _ =>
    if !(teamA.length == 5) then (db, .error .teamASizeInvalid)
    else if !(teamB.length == 5) then (db, .error .teamBSizeInvalid)
    else if !((teamA ++ teamB).dedup.length == 10) then (db, .error .teamsOverlap)
    else
      let target_date := get_next_wednesday_at_19 now
      match findSlot db target_date with
      | none => (db, .error .slotNotFound)
      | some slot =>
        let registered_player_ids := slot.players.map (fun p => p.user_id)
        let registered_guest_ids := slot.guests.map (fun g => g.guest_id)
        let all_registered_ids := registered_player_ids ++ registered_guest_ids
        match (teamA ++ teamB).find? (fun pid => !(all_registered_ids.contains pid)) with
        | some pid => (db, .error (.unknownTeamId pid))
        | none =>
          let db1 := updateSlot db target_date (fun s =>
            { s with teamA := teamA, teamB := teamB })
          match findSlot db1 target_date with
          | none => (db1, .error .slotNotFound)
          | some updated_slot =>
            (db1,
             .ok { date := updated_slot.date
                   players := slotDisplayNames updated_slot
                   player_count := (slotDisplayNames updated_slot).length
                   max_players := MAX_PLAYERS
                   timestamps := slotTimestamps updated_slot
                   teamA := resolveTeam updated_slot updated_slot.teamA
                   teamB := resolveTeam updated_slot updated_slot.teamB
                   teamAScore := updated_slot.teamAScore
                   teamBScore := updated_slot.teamBScore
                   isRegistrationOpen := is_registration_open now })

/-- Embedding of the `POST /api/admin/set-scores` handler `set_team_scores`.
Checks in source order: admin lookup, slot existence; then unconditionally
overwrites both scores (pydantic constrains them to non-negative integers,
modelled by `Nat`) and returns the full response with resolved rosters. -/
def set_team_scores (now : Datetime) (db : DB) (teamAScore teamBScore : Nat)
    (admin_username : String) : DB × Except ApiError SlotResponse :=
  match findAdmin db admin_username with
  | none => (db, .error .adminRequired)
  | some _ =>
    let target_date := get_next_wednesday_at_19 now
    match findSlot db target_date with
    | none => (db, .error .slotNotFound)
    | some _ =>
      let db1 := updateSlot db target_date (fun s =>
        { s with teamAScore := some teamAScore, teamBScore := some teamBScore })
      match findSlot db1 target_date with
      | none => (db1, .error .slotNotFound)
      | some updated_slot =>
        (db1,
         .ok { date := updated_slot.date
               players := slotDisplayNames updated_slot
               player_count := (slotDisplayNames updated_slot).length
               max_players := MAX_PLAYERS
               timestamps := slotTimestamps updated_slot
               teamA := resolveTeam updated_slot updated_slot.teamA
               teamB := resolveTeam updated_slot updated_slot.teamB
               teamAScore := updated_slot.teamAScore
               teamBScore := updated_slot.teamBScore
               isRegistrationOpen := is_registration_open now })

end SoccerSlotManager

deriving instance DecidableEq for Except

namespace SoccerSlotManager

/-- Slot invariant of the specification: combined occupancy at most
MAX_PLAYERS, no duplicate `user_id` among players, no duplicate guest name
among guests. -/
def SlotInv (s : Slot) : Prop :=
  s.players.length + s.guests.length ≤ MAX_PLAYERS ∧
  (s.players.map (fun p => p.user_id)).Nodup ∧
  (s.guests.map (fun g => g.name)).Nodup

instance : DecidablePred SlotInv := fun s => by
  unfold SlotInv; infer_instance

/-- Database-wide form of the slot invariant. -/
def DBInv (db : DB) : Prop := ∀ s ∈ db.slots, SlotInv s

instance : DecidablePred DBInv := fun db => by
  unfold DBInv; infer_instance

/-- One request against the service, carrying the wall-clock instant at
which it runs and all its inputs. -/
inductive Op
  | opGetSlot (now : Datetime) (test_registration_open : Option Bool)
  | opRegisterPlayer (now : Datetime) (username : String)
  | opRegisterGuest (now : Datetime) (guestName username guest_id : String)
  | opUnregister (now : Datetime) (player_name username : String)
  | opSetTeams (now : Datetime) (teamA teamB : List String) (admin_username : String)
  | opSetScores (now : Datetime) (a b : Nat) (admin_username : String)
deriving DecidableEq, Repr

/-- Database state after one request (error responses leave exactly the
writes the handler performed before raising, success responses the full
effect). -/
def applyOp (db : DB) : Op → DB
  | .opGetSlot now t => (get_current_slot now db t).1
  | .opRegisterPlayer now u => (register_player now db u).1
  | .opRegisterGuest now g u gid => (register_guest now db g u gid).1
  | .opUnregister now p u => (unregister_player now db p u).1
  | .opSetTeams now a b adm => (set_team_composition now db a b adm).1
  | .opSetScores now a b adm => (set_team_scores now db a b adm).1

/-- Database state after a sequence of requests. -/
def runOps (db : DB) (ops : List Op) : DB := ops.foldl applyOp db

/-- Lexicographic strictly-before comparison of a Datetime's time of day
against a clock time, written out from the spec's wall-clock phrasing. -/
def timeOfDayBefore (t : Datetime) (h m s : Nat) : Prop :=
  t.hour < h ∨ (t.hour = h ∧ (t.minute < m ∨ (t.minute = m ∧ t.second < s)))

/-- Registration window as the spec words it: Monday at or after 12:00, any
time Tuesday, or Wednesday strictly before 20:00. -/
def regWindowSpec (t : Datetime) : Prop :=
  (t.weekday = 0 ∧ ¬ timeOfDayBefore t 12 0 0) ∨
  t.weekday = 1 ∨
  (t.weekday = 2 ∧ timeOfDayBefore t 20 0 0)

/-- Response record shared by the two registration endpoints on success. -/
def registerResponse (now : Datetime) (s : Slot) : SlotResponse :=
  { date := s.date
    players := slotDisplayNames s
    player_count := s.players.length + s.guests.length
    max_players := MAX_PLAYERS
    timestamps := slotTimestamps s
    teamA := []
    teamB := []
    teamAScore := s.teamAScore
    teamBScore := s.teamBScore
    isRegistrationOpen := is_registration_open now }

/-- Response record of the unregister endpoint on success; the source omits
the team fields, so they take the pydantic defaults. -/
def unregisterResponse (s : Slot) : SlotResponse :=
  ⟨s.date, slotDisplayNames s, s.players.length + s.guests.length, MAX_PLAYERS,
   slotTimestamps s, [], [], none, none, true⟩


/-- C6: is_registration_open holds exactly on Monday at or after 12:00,
any time Tuesday, and Wednesday strictly before 20:00 (stated against the
spec-worded wall-clock predicate regWindowSpec), and in particular at the
listed boundary instants. -/
theorem C6_thm :
    (∀ t : Datetime, is_registration_open t = true ↔ regWindowSpec t) ∧
    is_registration_open ⟨0, 12, 0, 0⟩ = true ∧
    is_registration_open ⟨1, 0, 0, 0⟩ = true ∧
    is_registration_open ⟨1, 23, 59, 59⟩ = true ∧
    is_registration_open ⟨2, 19, 59, 59⟩ = true ∧
    is_registration_open ⟨2, 20, 0, 0⟩ = false ∧
    (∀ w h m s : Nat, is_registration_open ⟨7 * w + 6, h, m, s⟩ = false) ∧
    is_registration_open ⟨0, 11, 59, 59⟩ = false := by
  refine ⟨?_, by decide, by decide, by decide, by decide, by decide, ?_, by decide⟩
  · intro t
    simp only [is_registration_open, regWindowSpec, timeOfDayBefore, Datetime.weekday]
    split_ifs with h1 h2 h3 <;>
      simp_all [Bool.and_eq_true, beq_iff_eq, decide_eq_true_eq]
  · intro w h m s
    simp only [is_registration_open, Datetime.weekday]
    have : (7 * w + 6) % 7 = 6 := by omega
    simp [this]

/-- C7 counterexample: at exactly Wednesday 19:00:00 the code returns the
FOLLOWING Wednesday (day 9), not that same Wednesday (day 2) as the claim
states, because the guard is the strict comparison hour < 19. -/
theorem C7_counterexample :
    get_next_wednesday_at_19 ⟨2, 19, 0, 0⟩ = ⟨9, 19, 0, 0⟩ ∧
    ¬ get_next_wednesday_at_19 ⟨2, 19, 0, 0⟩ = ⟨2, 19, 0, 0⟩ := by
  decide

/-- C7 (amended): get_next_wednesday_at_19 returns today at 19:00 on a
Wednesday strictly before 19:00, and the following Wednesday at 19:00 —
seven days after the current week's Wednesday — on a Wednesday at or after
19:00:00 (including exactly 19:00:00, contrary to the original claim) or on
any later weekday. -/
theorem C7_thm :
    (∀ d h m s : Nat, h < 19 →
      get_next_wednesday_at_19 ⟨7 * d + 2, h, m, s⟩ = ⟨7 * d + 2, 19, 0, 0⟩) ∧
    (∀ d h m s : Nat, 19 ≤ h →
      get_next_wednesday_at_19 ⟨7 * d + 2, h, m, s⟩ = ⟨7 * d + 9, 19, 0, 0⟩) ∧
    (∀ d w h m s : Nat, 3 ≤ w → w ≤ 6 →
      get_next_wednesday_at_19 ⟨7 * d + w, h, m, s⟩ = ⟨7 * d + 9, 19, 0, 0⟩) := by
  refine ⟨?_, ?_, ?_⟩
  · intro d h m s hh
    have hw : (7 * d + 2) % 7 = 2 := by omega
    simp [get_next_wednesday_at_19, Datetime.weekday, Datetime.replaceTime, hw, hh,
      MATCH_DAY, MATCH_HOUR, MATCH_MINUTE]
  · intro d h m s hh
    have hw : (7 * d + 2) % 7 = 2 := by omega
    simp only [get_next_wednesday_at_19, Datetime.weekday, Datetime.replaceTime,
      Datetime.addDays, hw, MATCH_DAY, MATCH_HOUR, MATCH_MINUTE]
    have hnh : ¬ h < 19 := by omega
    simp only [hnh, decide_False, Bool.and_false, Bool.false_eq_true, if_false]
    norm_num [Datetime.mk.injEq]
    omega
  · intro d w h m s h3 h6
    have hw : (7 * d + w) % 7 = w := by omega
    simp only [get_next_wednesday_at_19, Datetime.weekday, Datetime.replaceTime,
      Datetime.addDays, hw, MATCH_DAY, MATCH_HOUR, MATCH_MINUTE]
    have hne : ¬ (w == 2) = true := by simp only [beq_iff_eq]; omega
    simp only [hne, Bool.false_and, if_false, Bool.false_eq_true, Datetime.mk.injEq]
    refine ⟨?_, trivial, trivial, trivial⟩
    omega


theorem find?_updateSlotList_self {d : Datetime} {f : Slot → Slot} {l : List Slot} {s : Slot}
    (h : l.find? (fun x => x.date == d) = some s) (hf : (f s).date = s.date) :
    (updateSlotList d f l).find? (fun x => x.date == d) = some (f s) := by
  induction l with
  | nil => simp at h
  | cons a rest ih =>
    by_cases hd : (a.date == d) = true
    · rw [@List.find?_cons_of_pos _ (fun x => x.date == d) a rest hd] at h
      obtain rfl : a = s := by injection h
      simp only [updateSlotList, if_pos hd]
      exact List.find?_cons_of_pos _ (by rw [hf]; exact hd)
    · rw [@List.find?_cons_of_neg _ (fun x => x.date == d) a rest hd] at h
      simp only [updateSlotList, if_neg hd]
      rw [@List.find?_cons_of_neg _ (fun x => x.date == d) a (updateSlotList d f rest) hd]
      exact ih h

theorem mem_updateSlotList {d : Datetime} {f : Slot → Slot} {l : List Slot} {s' : Slot}
    (h : s' ∈ updateSlotList d f l) :
    s' ∈ l ∨ ∃ s, l.find? (fun x => x.date == d) = some s ∧ s' = f s := by
  induction l with
  | nil => simp [updateSlotList] at h
  | cons a rest ih =>
    by_cases hd : (a.date == d) = true
    · rw [updateSlotList, if_pos hd] at h
      rcases List.mem_cons.mp h with h1 | h1
      · exact Or.inr ⟨a, List.find?_cons_of_pos _ hd, h1⟩
      · exact Or.inl (List.mem_cons_of_mem _ h1)
    · rw [updateSlotList, if_neg hd] at h
      rcases List.mem_cons.mp h with h1 | h1
      · exact Or.inl (h1 ▸ List.mem_cons_self a rest)
      · rcases ih h1 with h2 | ⟨s, hs, he⟩
        · exact Or.inl (List.mem_cons_of_mem _ h2)
        · exact Or.inr ⟨s, by
            rw [@List.find?_cons_of_neg _ (fun x => x.date == d) a rest hd]; exact hs, he⟩

theorem findSlot_updateSlot_self {db : DB} {d : Datetime} {f : Slot → Slot} {s : Slot}
    (h : findSlot db d = some s) (hf : (f s).date = s.date) :
    findSlot (updateSlot db d f) d = some (f s) :=
  find?_updateSlotList_self h hf

theorem findSlot_append_new {db : DB} {d : Datetime}
    (h : findSlot db d = none) :
    findSlot { db with slots := db.slots ++ [newSlot d] } d = some (newSlot d) := by
  unfold findSlot at *
  rw [List.find?_append, h]
  simp [newSlot]


/-- C9: set_scores demands an admin caller and an existing slot, failing
with adminRequired and slotNotFound respectively while leaving the
database unchanged; on success it overwrites both scores together with the
given (non-negative, Nat-modelled) values and leaves date, players, guests
and both team rosters of the slot untouched. -/
theorem C9_thm :
    ∀ (now : Datetime) (db : DB) (a b : Nat) (admin_username : String),
    (findAdmin db admin_username = none →
      set_team_scores now db a b admin_username = (db, .error .adminRequired)) ∧
    (∀ u, findAdmin db admin_username = some u →
      findSlot db (get_next_wednesday_at_19 now) = none →
      set_team_scores now db a b admin_username = (db, .error .slotNotFound)) ∧
    (∀ u s, findAdmin db admin_username = some u →
      findSlot db (get_next_wednesday_at_19 now) = some s →
      (set_team_scores now db a b admin_username).2.isOk = true ∧
      findSlot (set_team_scores now db a b admin_username).1 (get_next_wednesday_at_19 now)
        = some ⟨s.date, s.players, s.guests, s.teamA, s.teamB, some a, some b⟩) := by
  intro now db a b admin_username
  refine ⟨?_, ?_, ?_⟩
  · intro h
    simp [set_team_scores, h]
  · intro u h1 h2
    simp [set_team_scores, h1, h2]
  · intro u s h1 h2
    have hup := @findSlot_updateSlot_self db (get_next_wednesday_at_19 now)
      (fun x => { x with teamAScore := some a, teamBScore := some b }) s h2 rfl
    simp [set_team_scores, h1, h2, updateSlot] at hup ⊢
    simp [hup, Except.isOk, Except.toBool]

/-- C10: every successful register_player or register_guest response
carries empty team rosters — the source hard-codes empty lists — even when
the stored slot has teams set, while the current-slot view resolves and
returns the stored rosters. -/
theorem C10_thm :
    ∀ (now : Datetime) (db : DB) (username guestName guest_id : String) (r : SlotResponse),
    ((register_player now db username).2 = .ok r → r.teamA = [] ∧ r.teamB = []) ∧
    ((register_guest now db guestName username guest_id).2 = .ok r → r.teamA = [] ∧ r.teamB = []) ∧
    (∀ s, findSlot db (get_next_wednesday_at_19 now) = some s →
      (get_current_slot now db none).2.teamA = resolveTeam s s.teamA ∧
      (get_current_slot now db none).2.teamB = resolveTeam s s.teamB) := by
  intro now db username guestName guest_id r
  refine ⟨?_, ?_, ?_⟩
  · intro h
    unfold register_player at h
    split at h
    · simp at h
    · split at h
      · simp at h
      · simp only [ge_iff_le] at h
        split at h
        · simp at h
        · split at h
          · simp at h
          · split at h
            · simp at h
            · injection h with h
              subst h
              exact ⟨rfl, rfl⟩
  · intro h
    unfold register_guest at h
    split at h
    · simp at h
    · split at h
      · simp at h
      · simp only [ge_iff_le] at h
        split at h
        · simp at h
        · split at h
          · simp at h
          · split at h
            · simp at h
            · injection h with h
              subst h
              exact ⟨rfl, rfl⟩
  · intro s h
    simp [get_current_slot, h]


theorem DBInv_updateSlot {db : DB} {d : Datetime} {f : Slot → Slot} (hinv : DBInv db)
    (h : ∀ s, findSlot db d = some s → SlotInv (f s)) :
    DBInv (updateSlot db d f) := by
  intro s' hs'
  rcases mem_updateSlotList hs' with h1 | ⟨s, hs, rfl⟩
  · exact hinv s' h1
  · exact h s hs

theorem DBInv_append_new {db : DB} {d : Datetime} (hinv : DBInv db) :
    DBInv { db with slots := db.slots ++ [newSlot d] } := by
  intro s' hs'
  rcases List.mem_append.mp hs' with h1 | h1
  · exact hinv s' h1
  · rcases List.mem_singleton.mp h1 with rfl
    simp [SlotInv, newSlot, MAX_PLAYERS]

theorem SlotInv_newSlot (d : Datetime) : SlotInv (newSlot d) := by
  simp [SlotInv, newSlot, MAX_PLAYERS]

theorem SlotInv_filter_players {s : Slot} (h : SlotInv s) (p : PlayerEntry → Bool) :
    SlotInv { s with players := s.players.filter p } := by
  obtain ⟨h1, h2, h3⟩ := h
  refine ⟨?_, ?_, h3⟩
  · have := List.length_filter_le p s.players
    simp only at *
    omega
  · exact h2.sublist ((s.players.filter_sublist).map _)

theorem SlotInv_filter_guests {s : Slot} (h : SlotInv s) (p : GuestEntry → Bool) :
    SlotInv { s with guests := s.guests.filter p } := by
  obtain ⟨h1, h2, h3⟩ := h
  refine ⟨?_, h2, ?_⟩
  · have := List.length_filter_le p s.guests
    simp only at *
    omega
  · exact h3.sublist ((s.guests.filter_sublist).map _)

theorem DBInv_get_current_slot (now : Datetime) (db : DB) (t : Option Bool)
    (hinv : DBInv db) : DBInv (get_current_slot now db t).1 := by
  unfold get_current_slot
  cases hf : findSlot db (get_next_wednesday_at_19 now) with
  | some s => simpa [hf] using hinv
  | none => simpa [hf] using DBInv_append_new hinv


theorem SlotInv_push_player {s : Slot} (hs : SlotInv s) (e : PlayerEntry)
    (hcap : s.players.length + s.guests.length < MAX_PLAYERS)
    (hdup : e.user_id ∉ s.players.map (fun p => p.user_id)) :
    SlotInv { s with players := s.players ++ [e] } := by
  obtain ⟨h1, h2, h3⟩ := hs
  refine ⟨?_, ?_, h3⟩
  · simp only [List.length_append, List.length_singleton]
    omega
  · rw [List.map_append, List.nodup_append]
    refine ⟨h2, List.nodup_singleton _, ?_⟩
    intro x hx hxe
    rw [List.map_singleton, List.mem_singleton] at hxe
    subst hxe
    exact hdup hx

theorem SlotInv_push_guest {s : Slot} (hs : SlotInv s) (e : GuestEntry)
    (hcap : s.players.length + s.guests.length < MAX_PLAYERS)
    (hdup : e.name ∉ s.guests.map (fun g => g.name)) :
    SlotInv { s with guests := s.guests ++ [e] } := by
  obtain ⟨h1, h2, h3⟩ := hs
  refine ⟨?_, h2, ?_⟩
  · simp only [List.length_append, List.length_singleton]
    omega
  · rw [List.map_append, List.nodup_append]
    refine ⟨h3, List.nodup_singleton _, ?_⟩
    intro x hx hxe
    rw [List.map_singleton, List.mem_singleton] at hxe
    subst hxe
    exact hdup hx

theorem DBInv_register_player (now : Datetime) (db : DB) (u : String) (hinv : DBInv db) :
    DBInv (register_player now db u).1 := by
  unfold register_player
  by_cases ho : is_registration_open now
  case neg => simp only [ho, Bool.not_false, if_true]; exact hinv
  case pos =>
  rw [if_neg (by simp [ho])]
  cases hu : findUser db u with
  | none => exact hinv
  | some user =>
    dsimp only
    cases hf : findSlot db (get_next_wednesday_at_19 now) with
    | some s =>
      dsimp only
      by_cases hcap : s.players.length + s.guests.length ≥ MAX_PLAYERS
      · rw [if_pos hcap]
        exact hinv
      · rw [if_neg hcap]
        by_cases hdup : ((s.players.map (fun p => p.user_id)).contains user._id) = true
        · rw [if_pos hdup]
          exact hinv
        · rw [if_neg hdup]
          have hself := @findSlot_updateSlot_self db (get_next_wednesday_at_19 now)
            (fun x => { x with players := x.players ++ [⟨user._id, u, now⟩] }) s hf rfl
          rw [hself]
          refine DBInv_updateSlot hinv ?_
          intro s0 hs0
          rw [hf] at hs0
          injection hs0 with hs0
          subst hs0
          refine SlotInv_push_player (hinv s (List.mem_of_find?_eq_some hf)) _ (by omega) ?_
          simpa using hdup
    | none =>
      dsimp only
      have happ := @findSlot_append_new db (get_next_wednesday_at_19 now) hf
      have hself := @findSlot_updateSlot_self
        { db with slots := db.slots ++ [newSlot (get_next_wednesday_at_19 now)] }
        (get_next_wednesday_at_19 now)
        (fun x => { x with players := x.players ++ [⟨user._id, u, now⟩] })
        (newSlot (get_next_wednesday_at_19 now)) happ rfl
      rw [if_neg (by simp [newSlot, MAX_PLAYERS])]
      rw [if_neg (by simp [newSlot])]
      rw [hself]
      refine DBInv_updateSlot (DBInv_append_new hinv) ?_
      intro s0 hs0
      rw [happ] at hs0
      injection hs0 with hs0
      subst hs0
      refine SlotInv_push_player (SlotInv_newSlot _) _ (by simp [newSlot, MAX_PLAYERS]) ?_
      simp [newSlot]


theorem DBInv_register_guest (now : Datetime) (db : DB) (g u gid : String) (hinv : DBInv db) :
    DBInv (register_guest now db g u gid).1 := by
  unfold register_guest
  by_cases ho : is_registration_open now
  case neg => simp only [ho, Bool.not_false, if_true]; exact hinv
  case pos =>
  rw [if_neg (by simp [ho])]
  cases hu : findUser db u with
  | none => exact hinv
  | some user =>
    dsimp only
    cases hf : findSlot db (get_next_wednesday_at_19 now) with
    | some s =>
      dsimp only
      by_cases hcap : s.players.length + s.guests.length ≥ MAX_PLAYERS
      · rw [if_pos hcap]
        exact hinv
      · rw [if_neg hcap]
        by_cases hdup : ((s.guests.map (fun x => x.name)).contains g) = true
        · rw [if_pos hdup]
          exact hinv
        · rw [if_neg hdup]
          have hself := @findSlot_updateSlot_self db (get_next_wednesday_at_19 now)
            (fun x => { x with guests := x.guests ++ [⟨gid, g, user._id, u, now⟩] }) s hf rfl
          rw [hself]
          refine DBInv_updateSlot hinv ?_
          intro s0 hs0
          rw [hf] at hs0
          injection hs0 with hs0
          subst hs0
          refine SlotInv_push_guest (hinv s (List.mem_of_find?_eq_some hf)) _ (by omega) ?_
          simpa using hdup
    | none =>
      dsimp only
      have happ := @findSlot_append_new db (get_next_wednesday_at_19 now) hf
      have hself := @findSlot_updateSlot_self
        { db with slots := db.slots ++ [newSlot (get_next_wednesday_at_19 now)] }
        (get_next_wednesday_at_19 now)
        (fun x => { x with guests := x.guests ++ [⟨gid, g, user._id, u, now⟩] })
        (newSlot (get_next_wednesday_at_19 now)) happ rfl
      rw [if_neg (by simp [newSlot, MAX_PLAYERS])]
      rw [if_neg (by simp [newSlot])]
      rw [hself]
      refine DBInv_updateSlot (DBInv_append_new hinv) ?_
      intro s0 hs0
      rw [happ] at hs0
      injection hs0 with hs0
      subst hs0
      refine SlotInv_push_guest (SlotInv_newSlot _) _ (by simp [newSlot, MAX_PLAYERS]) ?_
      simp [newSlot]

theorem DBInv_unregister_player (now : Datetime) (db : DB) (pn u : String) (hinv : DBInv db) :
    DBInv (unregister_player now db pn u).1 := by
  have hP : ∀ (p : PlayerEntry → Bool),
      DBInv (updateSlot db (get_next_wednesday_at_19 now)
        (fun x => { x with players := x.players.filter p })) := by
    intro p
    exact DBInv_updateSlot hinv
      (fun s0 hs0 => SlotInv_filter_players (hinv s0 (List.mem_of_find?_eq_some hs0)) p)
  have hG : ∀ (p : GuestEntry → Bool),
      DBInv (updateSlot db (get_next_wednesday_at_19 now)
        (fun x => { x with guests := x.guests.filter p })) := by
    intro p
    exact DBInv_updateSlot hinv
      (fun s0 hs0 => SlotInv_filter_guests (hinv s0 (List.mem_of_find?_eq_some hs0)) p)
  unfold unregister_player
  cases hu : findUser db u with
  | none => exact hinv
  | some user =>
    dsimp only
    cases hf : findSlot db (get_next_wednesday_at_19 now) with
    | none => exact hinv
    | some s =>
      dsimp only
      cases hp : s.players.find? (fun p => p.username == pn) with
      | some player =>
        dsimp only
        by_cases hauth : (user.role == Role.admin || player.user_id == user._id) = true
        · rw [if_pos hauth]
          dsimp only
          rw [if_neg (by simp)]
          dsimp only
          rw [if_neg (by simp)]
          cases hre : findSlot (updateSlot db (get_next_wednesday_at_19 now)
              (fun x => { x with players := x.players.filter (fun p => !(p.username == pn)) }))
              (get_next_wednesday_at_19 now) with
          | none => exact hP _
          | some us => exact hP _
        · rw [if_neg hauth]
          exact hinv
      | none =>
        simp only [Bool.not_false, Bool.true_and]
        by_cases hsw : pyStartsWith pn "(Invité)" = true
        · rw [if_pos hsw]
          cases hpar : parseGuestTarget pn with
          | none => exact hinv
          | some gname =>
            dsimp only
            cases hg : s.guests.find? (fun x => x.name == gname) with
            | none => exact hinv
            | some guest =>
              dsimp only
              by_cases hauth : (user.role == Role.admin || guest.invitedBy_id == user._id) = true
              · rw [if_pos hauth]
                dsimp only
                rw [if_neg (by simp)]
                cases hre : findSlot (updateSlot db (get_next_wednesday_at_19 now)
                    (fun x => { x with guests := x.guests.filter (fun g => !(g.name == gname)) }))
                    (get_next_wednesday_at_19 now) with
                | none => exact hG _
                | some us => exact hG _
              · rw [if_neg hauth]
                exact hinv
        · rw [if_neg hsw]
          exact hinv

theorem DBInv_set_team_composition (now : Datetime) (db : DB) (tA tB : List String)
    (adm : String) (hinv : DBInv db) :
    DBInv (set_team_composition now db tA tB adm).1 := by
  unfold set_team_composition
  dsimp only
  repeat' split
  all_goals first
    | exact hinv
    | exact DBInv_updateSlot hinv
        (fun s0 hs0 => (hinv s0 (List.mem_of_find?_eq_some hs0) : SlotInv s0))

theorem DBInv_set_team_scores (now : Datetime) (db : DB) (a b : Nat)
    (adm : String) (hinv : DBInv db) :
    DBInv (set_team_scores now db a b adm).1 := by
  unfold set_team_scores
  dsimp only
  repeat' split
  all_goals first
    | exact hinv
    | exact DBInv_updateSlot hinv
        (fun s0 hs0 => (hinv s0 (List.mem_of_find?_eq_some hs0) : SlotInv s0))

theorem DBInv_applyOp (db : DB) (op : Op) (hinv : DBInv db) : DBInv (applyOp db op) := by
  cases op with
  | opGetSlot now t => exact DBInv_get_current_slot now db t hinv
  | opRegisterPlayer now u => exact DBInv_register_player now db u hinv
  | opRegisterGuest now g u gid => exact DBInv_register_guest now db g u gid hinv
  | opUnregister now p u => exact DBInv_unregister_player now db p u hinv
  | opSetTeams now a b adm => exact DBInv_set_team_composition now db a b adm hinv
  | opSetScores now a b adm => exact DBInv_set_team_scores now db a b adm hinv

/-- C1: every sequence of sequential operations (register_player,
register_guest, unregister, set_team_composition, set_scores,
get_or_create_current_slot) applied to a database whose slots satisfy the
invariants — combined occupancy at most 10, no duplicate user_id among
players, no duplicate guest name — preserves those invariants, so along any
such run every slot always satisfies them. -/
theorem C1_thm (ops : List Op) (db : DB) (hinv : DBInv db) : DBInv (runOps db ops) := by
  induction ops generalizing db with
  | nil => exact hinv
  | cons op rest ih =>
    simp only [runOps, List.foldl] at *
    exact ih _ (DBInv_applyOp db op hinv)


theorem register_player_eq_closed {now : Datetime} (db : DB) (username : String)
    (ho : is_registration_open now = false) :
    register_player now db username = (db, .error .registrationClosed) := by
  unfold register_player
  rw [if_pos (by simp [ho])]

theorem register_player_eq_no_user {now : Datetime} {db : DB} {username : String}
    (ho : is_registration_open now = true)
    (hu : findUser db username = none) :
    register_player now db username = (db, .error .authRequired) := by
  unfold register_player
  rw [if_neg (by simp [ho]), hu]

theorem register_player_eq_full {now : Datetime} {db : DB} {username : String}
    {user : User} {s : Slot}
    (ho : is_registration_open now = true)
    (hu : findUser db username = some user)
    (hf : findSlot db (get_next_wednesday_at_19 now) = some s)
    (hcap : MAX_PLAYERS ≤ s.players.length + s.guests.length) :
    register_player now db username = (db, .error .slotFull) := by
  unfold register_player
  rw [if_neg (by simp [ho]), hu]
  dsimp only
  rw [hf]
  dsimp only
  rw [if_pos hcap]

theorem register_player_eq_dup {now : Datetime} {db : DB} {username : String}
    {user : User} {s : Slot}
    (ho : is_registration_open now = true)
    (hu : findUser db username = some user)
    (hf : findSlot db (get_next_wednesday_at_19 now) = some s)
    (hcap : s.players.length + s.guests.length < MAX_PLAYERS)
    (hdup : ((s.players.map (fun p => p.user_id)).contains user._id) = true) :
    register_player now db username = (db, .error .alreadyRegistered) := by
  unfold register_player
  rw [if_neg (by simp [ho]), hu]
  dsimp only
  rw [hf]
  dsimp only
  rw [if_neg (Nat.not_le.mpr hcap), if_pos hdup]

theorem register_player_eq_success {now : Datetime} {db : DB} {username : String}
    {user : User} {s : Slot}
    (ho : is_registration_open now = true)
    (hu : findUser db username = some user)
    (hf : findSlot db (get_next_wednesday_at_19 now) = some s)
    (hcap : s.players.length + s.guests.length < MAX_PLAYERS)
    (hdup : ((s.players.map (fun p => p.user_id)).contains user._id) = false) :
    register_player now db username =
      (updateSlot db (get_next_wednesday_at_19 now)
         (fun x => { x with players := x.players ++ [⟨user._id, username, now⟩] }),
       .ok (registerResponse now
         { s with players := s.players ++ [⟨user._id, username, now⟩] })) := by
  have hself := @findSlot_updateSlot_self db (get_next_wednesday_at_19 now)
    (fun x => { x with players := x.players ++ [⟨user._id, username, now⟩] }) s hf rfl
  unfold register_player
  rw [if_neg (by simp [ho]), hu]
  dsimp only
  rw [hf]
  dsimp only
  rw [if_neg (Nat.not_le.mpr hcap), if_neg (by simpa using hdup), hself]
  rfl

theorem register_player_eq_success_new {now : Datetime} {db : DB} {username : String}
    {user : User}
    (ho : is_registration_open now = true)
    (hu : findUser db username = some user)
    (hf : findSlot db (get_next_wednesday_at_19 now) = none) :
    register_player now db username =
      (updateSlot { db with slots := db.slots ++ [newSlot (get_next_wednesday_at_19 now)] }
         (get_next_wednesday_at_19 now)
         (fun x => { x with players := x.players ++ [⟨user._id, username, now⟩] }),
       .ok (registerResponse now
         { newSlot (get_next_wednesday_at_19 now) with
           players := [⟨user._id, username, now⟩] })) := by
  have happ := @findSlot_append_new db (get_next_wednesday_at_19 now) hf
  have hself := @findSlot_updateSlot_self
    { db with slots := db.slots ++ [newSlot (get_next_wednesday_at_19 now)] }
    (get_next_wednesday_at_19 now)
    (fun x => { x with players := x.players ++ [⟨user._id, username, now⟩] })
    (newSlot (get_next_wednesday_at_19 now)) happ rfl
  unfold register_player
  rw [if_neg (by simp [ho]), hu]
  dsimp only
  rw [hf]
  dsimp only
  rw [if_neg (by simp [newSlot, MAX_PLAYERS]), if_neg (by simp [newSlot]), hself]
  rfl


/-- C2: register_player checks, in order, the registration window
(registrationClosed), user existence (authRequired), capacity (slotFull) and
duplicate user_id (alreadyRegistered); the first failing check determines
the error and leaves the database unchanged; when every check passes,
exactly the entry {user_id, username, now} is appended to the slot's
players (guests and all other fields untouched), and a second registration
of the same user on the same still-not-full slot is rejected with the
duplicate-registration error while the database stays as it was after the
first registration. -/
theorem C2_thm :
    ∀ (now : Datetime) (db : DB) (username : String),
    (is_registration_open now = false →
      register_player now db username = (db, .error .registrationClosed)) ∧
    (is_registration_open now = true → findUser db username = none →
      register_player now db username = (db, .error .authRequired)) ∧
    (∀ user s, is_registration_open now = true → findUser db username = some user →
      findSlot db (get_next_wednesday_at_19 now) = some s →
      MAX_PLAYERS ≤ s.players.length + s.guests.length →
      register_player now db username = (db, .error .slotFull)) ∧
    (∀ user s, is_registration_open now = true → findUser db username = some user →
      findSlot db (get_next_wednesday_at_19 now) = some s →
      s.players.length + s.guests.length < MAX_PLAYERS →
      ((s.players.map (fun p => p.user_id)).contains user._id) = true →
      register_player now db username = (db, .error .alreadyRegistered)) ∧
    (∀ user s, is_registration_open now = true → findUser db username = some user →
      findSlot db (get_next_wednesday_at_19 now) = some s →
      s.players.length + s.guests.length < MAX_PLAYERS →
      ((s.players.map (fun p => p.user_id)).contains user._id) = false →
      register_player now db username =
        (updateSlot db (get_next_wednesday_at_19 now)
           (fun x => { x with players := x.players ++ [⟨user._id, username, now⟩] }),
         .ok (registerResponse now
           { s with players := s.players ++ [⟨user._id, username, now⟩] })) ∧
      findSlot (register_player now db username).1 (get_next_wednesday_at_19 now) =
        some { s with players := s.players ++ [⟨user._id, username, now⟩] }) ∧
    (∀ user, is_registration_open now = true → findUser db username = some user →
      findSlot db (get_next_wednesday_at_19 now) = none →
      findSlot (register_player now db username).1 (get_next_wednesday_at_19 now) =
        some { newSlot (get_next_wednesday_at_19 now) with
               players := [⟨user._id, username, now⟩] } ∧
      (register_player now db username).2.isOk = true) ∧
    (∀ user s, is_registration_open now = true → findUser db username = some user →
      findSlot db (get_next_wednesday_at_19 now) = some s →
      s.players.length + s.guests.length < MAX_PLAYERS →
      ((s.players.map (fun p => p.user_id)).contains user._id) = false →
      s.players.length + 1 + s.guests.length < MAX_PLAYERS →
      register_player now (register_player now db username).1 username =
        ((register_player now db username).1, .error .alreadyRegistered)) := by
  intro now db username
  refine ⟨?_, ?_, ?_, ?_, ?_, ?_, ?_⟩
  · intro ho
    exact register_player_eq_closed db username ho
  · intro ho hu
    exact register_player_eq_no_user ho hu
  · intro user s ho hu hf hcap
    exact register_player_eq_full ho hu hf hcap
  · intro user s ho hu hf hcap hdup
    exact register_player_eq_dup ho hu hf hcap hdup
  · intro user s ho hu hf hcap hdup
    have heq := register_player_eq_success ho hu hf hcap hdup
    refine ⟨heq, ?_⟩
    rw [heq]
    exact @findSlot_updateSlot_self db (get_next_wednesday_at_19 now)
      (fun x => { x with players := x.players ++ [⟨user._id, username, now⟩] }) s hf rfl
  · intro user ho hu hf
    have heq := register_player_eq_success_new ho hu hf
    rw [heq]
    constructor
    · have happ := @findSlot_append_new db (get_next_wednesday_at_19 now) hf
      exact @findSlot_updateSlot_self
        { db with slots := db.slots ++ [newSlot (get_next_wednesday_at_19 now)] }
        (get_next_wednesday_at_19 now)
        (fun x => { x with players := x.players ++ [⟨user._id, username, now⟩] })
        (newSlot (get_next_wednesday_at_19 now)) happ rfl
    · rfl
  · intro user s ho hu hf hcap hdup h2cap
    have heq := register_player_eq_success ho hu hf hcap hdup
    rw [heq]
    have hu' : findUser (updateSlot db (get_next_wednesday_at_19 now)
        (fun x => { x with players := x.players ++ [⟨user._id, username, now⟩] })) username
        = some user := hu
    have hf' := @findSlot_updateSlot_self db (get_next_wednesday_at_19 now)
      (fun x => { x with players := x.players ++ [⟨user._id, username, now⟩] }) s hf rfl
    have hcap' : ({ s with players := s.players ++ [⟨user._id, username, now⟩] } : Slot).players.length +
        ({ s with players := s.players ++ [⟨user._id, username, now⟩] } : Slot).guests.length < MAX_PLAYERS := by
      simp only [List.length_append, List.length_singleton]
      simp only [MAX_PLAYERS] at h2cap ⊢
      omega
    have hdup' : ((({ s with players := s.players ++ [⟨user._id, username, now⟩] } : Slot).players.map
        (fun p => p.user_id)).contains user._id) = true := by
      simp
    exact register_player_eq_dup ho hu' hf' hcap' hdup'


/-- C1 witness: the invariant is checked concretely on an empty database
and after a concrete four-operation run. -/
theorem C1_witness :
    DBInv (⟨[], [⟨"u1", "alice", "1234", Role.user, none⟩], []⟩ : DB) ∧
    DBInv (runOps ⟨[], [⟨"u1", "alice", "1234", Role.user, none⟩], []⟩
      [Op.opRegisterPlayer ⟨1, 10, 0, 0⟩ "alice",
       Op.opRegisterGuest ⟨1, 10, 0, 0⟩ "Bob" "alice" "g1",
       Op.opUnregister ⟨1, 10, 0, 0⟩ "alice" "alice",
       Op.opGetSlot ⟨1, 11, 0, 0⟩ none]) :=
  ⟨by decide, C1_thm
    [Op.opRegisterPlayer ⟨1, 10, 0, 0⟩ "alice",
     Op.opRegisterGuest ⟨1, 10, 0, 0⟩ "Bob" "alice" "g1",
     Op.opUnregister ⟨1, 10, 0, 0⟩ "alice" "alice",
     Op.opGetSlot ⟨1, 11, 0, 0⟩ none]
    ⟨[], [⟨"u1", "alice", "1234", Role.user, none⟩], []⟩ (by decide)⟩

/-- C2 witness: a closed-window rejection and a concrete
register-then-register-again run ending in alreadyRegistered. -/
theorem C2_witness :
    register_player ⟨6, 10, 0, 0⟩ ⟨[], [⟨"u1", "alice", "1234", Role.user, none⟩], []⟩ "alice"
      = (⟨[], [⟨"u1", "alice", "1234", Role.user, none⟩], []⟩, .error .registrationClosed) ∧
    register_player ⟨1, 10, 0, 0⟩
        (register_player ⟨1, 10, 0, 0⟩
          ⟨[⟨⟨2, 19, 0, 0⟩, [], [], [], [], none, none⟩],
           [⟨"u1", "alice", "1234", Role.user, none⟩], []⟩ "alice").1 "alice"
      = ((register_player ⟨1, 10, 0, 0⟩
          ⟨[⟨⟨2, 19, 0, 0⟩, [], [], [], [], none, none⟩],
           [⟨"u1", "alice", "1234", Role.user, none⟩], []⟩ "alice").1,
         .error .alreadyRegistered) :=
  ⟨(C2_thm ⟨6, 10, 0, 0⟩ ⟨[], [⟨"u1", "alice", "1234", Role.user, none⟩], []⟩ "alice").1
     (by decide),
   (C2_thm ⟨1, 10, 0, 0⟩
      ⟨[⟨⟨2, 19, 0, 0⟩, [], [], [], [], none, none⟩],
       [⟨"u1", "alice", "1234", Role.user, none⟩], []⟩ "alice").2.2.2.2.2.2
     ⟨"u1", "alice", "1234", Role.user, none⟩
     ⟨⟨2, 19, 0, 0⟩, [], [], [], [], none, none⟩
     (by decide) (by decide) (by decide) (by decide) (by decide) (by decide)⟩

/-- C7 witness: concrete instants Wednesday 18:59, Wednesday 19:00:01 and
Thursday morning evaluated through the amended theorem. -/
theorem C7_witness :
    get_next_wednesday_at_19 ⟨2, 18, 59, 0⟩ = ⟨2, 19, 0, 0⟩ ∧
    get_next_wednesday_at_19 ⟨2, 19, 0, 1⟩ = ⟨9, 19, 0, 0⟩ ∧
    get_next_wednesday_at_19 ⟨4, 7, 30, 0⟩ = ⟨9, 19, 0, 0⟩ :=
  ⟨C7_thm.1 0 18 59 0 (by decide),
   C7_thm.2.1 0 19 0 1 (by decide),
   C7_thm.2.2 0 4 7 30 0 (by decide) (by decide)⟩

/-- C9 witness: a concrete admin score update stores both scores and
changes nothing else. -/
theorem C9_witness :
    (set_team_scores ⟨1, 10, 0, 0⟩
        ⟨[⟨⟨2, 19, 0, 0⟩, [], [], [], [], none, none⟩],
         [⟨"u9", "boss", "0000", Role.admin, none⟩], []⟩ 5 3 "boss").2.isOk = true ∧
    findSlot (set_team_scores ⟨1, 10, 0, 0⟩
        ⟨[⟨⟨2, 19, 0, 0⟩, [], [], [], [], none, none⟩],
         [⟨"u9", "boss", "0000", Role.admin, none⟩], []⟩ 5 3 "boss").1
        (get_next_wednesday_at_19 ⟨1, 10, 0, 0⟩)
      = some ⟨⟨2, 19, 0, 0⟩, [], [], [], [], some 5, some 3⟩ :=
  (C9_thm ⟨1, 10, 0, 0⟩
    ⟨[⟨⟨2, 19, 0, 0⟩, [], [], [], [], none, none⟩],
     [⟨"u9", "boss", "0000", Role.admin, none⟩], []⟩ 5 3 "boss").2.2
    ⟨"u9", "boss", "0000", Role.admin, none⟩
    ⟨⟨2, 19, 0, 0⟩, [], [], [], [], none, none⟩ (by decide) (by decide)

/-- C10 witness: a concrete successful registration whose response rosters
are empty. -/
theorem C10_witness :
    (register_player ⟨1, 10, 0, 0⟩ ⟨[], [⟨"u1", "alice", "1234", Role.user, none⟩], []⟩
        "alice").2
      = .ok ⟨⟨2, 19, 0, 0⟩, ["alice"], 1, 10, [⟨1, 10, 0, 0⟩], [], [], none, none, true⟩ ∧
    (⟨⟨2, 19, 0, 0⟩, ["alice"], 1, 10, [⟨1, 10, 0, 0⟩], [], [], none, none, true⟩
        : SlotResponse).teamA = [] ∧
    (⟨⟨2, 19, 0, 0⟩, ["alice"], 1, 10, [⟨1, 10, 0, 0⟩], [], [], none, none, true⟩
        : SlotResponse).teamB = [] :=
  ⟨by decide,
   ((C10_thm ⟨1, 10, 0, 0⟩ ⟨[], [⟨"u1", "alice", "1234", Role.user, none⟩], []⟩
      "alice" "Bob" "g1"
      ⟨⟨2, 19, 0, 0⟩, ["alice"], 1, 10, [⟨1, 10, 0, 0⟩], [], [], none, none, true⟩).1
     (by decide)).1,
   ((C10_thm ⟨1, 10, 0, 0⟩ ⟨[], [⟨"u1", "alice", "1234", Role.user, none⟩], []⟩
      "alice" "Bob" "g1"
      ⟨⟨2, 19, 0, 0⟩, ["alice"], 1, 10, [⟨1, 10, 0, 0⟩], [], [], none, none, true⟩).1
     (by decide)).2⟩


theorem set_teams_eq_noadmin {now : Datetime} {db : DB} {tA tB : List String} {adm : String}
    (hadm : findAdmin db adm = none) :
    set_team_composition now db tA tB adm = (db, .error .adminRequired) := by
  unfold set_team_composition
  rw [hadm]

theorem set_teams_eq_sizeA {now : Datetime} {db : DB} {tA tB : List String} {adm : String}
    {u : User} (hadm : findAdmin db adm = some u) (hA : tA.length ≠ 5) :
    set_team_composition now db tA tB adm = (db, .error .teamASizeInvalid) := by
  unfold set_team_composition
  rw [hadm]
  dsimp only
  rw [if_pos (by simp [hA])]

theorem set_teams_eq_sizeB {now : Datetime} {db : DB} {tA tB : List String} {adm : String}
    {u : User} (hadm : findAdmin db adm = some u) (hA : tA.length = 5) (hB : tB.length ≠ 5) :
    set_team_composition now db tA tB adm = (db, .error .teamBSizeInvalid) := by
  unfold set_team_composition
  rw [hadm]
  dsimp only
  rw [if_neg (by simp [hA]), if_pos (by simp [hB])]

theorem set_teams_eq_overlap {now : Datetime} {db : DB} {tA tB : List String} {adm : String}
    {u : User} (hadm : findAdmin db adm = some u) (hA : tA.length = 5) (hB : tB.length = 5)
    (hd : (tA ++ tB).dedup.length ≠ 10) :
    set_team_composition now db tA tB adm = (db, .error .teamsOverlap) := by
  unfold set_team_composition
  rw [hadm]
  dsimp only
  rw [if_neg (by simp [hA]), if_neg (by simp [hB]), if_pos (by simp [hd])]

theorem set_teams_eq_noslot {now : Datetime} {db : DB} {tA tB : List String} {adm : String}
    {u : User} (hadm : findAdmin db adm = some u) (hA : tA.length = 5) (hB : tB.length = 5)
    (hd : (tA ++ tB).dedup.length = 10)
    (hf : findSlot db (get_next_wednesday_at_19 now) = none) :
    set_team_composition now db tA tB adm = (db, .error .slotNotFound) := by
  unfold set_team_composition
  rw [hadm]
  dsimp only
  rw [if_neg (by simp [hA]), if_neg (by simp [hB]), if_neg (by simp [hd]), hf]

theorem set_teams_eq_unknown {now : Datetime} {db : DB} {tA tB : List String} {adm : String}
    {u : User} {s : Slot} {pid : String}
    (hadm : findAdmin db adm = some u) (hA : tA.length = 5) (hB : tB.length = 5)
    (hd : (tA ++ tB).dedup.length = 10)
    (hf : findSlot db (get_next_wednesday_at_19 now) = some s)
    (hfind : (tA ++ tB).find? (fun x =>
        !((s.players.map (fun p => p.user_id) ++ s.guests.map (fun g => g.guest_id)).contains x))
      = some pid) :
    set_team_composition now db tA tB adm = (db, .error (.unknownTeamId pid)) := by
  unfold set_team_composition
  rw [hadm]
  dsimp only
  rw [if_neg (by simp [hA]), if_neg (by simp [hB]), if_neg (by simp [hd]), hf]
  dsimp only
  rw [hfind]

theorem set_teams_eq_success {now : Datetime} {db : DB} {tA tB : List String} {adm : String}
    {u : User} {s : Slot}
    (hadm : findAdmin db adm = some u) (hA : tA.length = 5) (hB : tB.length = 5)
    (hd : (tA ++ tB).dedup.length = 10)
    (hf : findSlot db (get_next_wednesday_at_19 now) = some s)
    (hfind : (tA ++ tB).find? (fun x =>
        !((s.players.map (fun p => p.user_id) ++ s.guests.map (fun g => g.guest_id)).contains x))
      = none) :
    (set_team_composition now db tA tB adm).1
      = updateSlot db (get_next_wednesday_at_19 now)
          (fun x => { x with teamA := tA, teamB := tB }) ∧
    (set_team_composition now db tA tB adm).2.isOk = true ∧
    findSlot (set_team_composition now db tA tB adm).1 (get_next_wednesday_at_19 now)
      = some { s with teamA := tA, teamB := tB } := by
  have hself := @findSlot_updateSlot_self db (get_next_wednesday_at_19 now)
    (fun x => { x with teamA := tA, teamB := tB }) s hf rfl
  unfold set_team_composition
  rw [hadm]
  dsimp only
  rw [if_neg (by simp [hA]), if_neg (by simp [hB]), if_neg (by simp [hd]), hf]
  dsimp only
  rw [hfind, hself]
  exact ⟨rfl, rfl, hself⟩


/-- C4: set_team_composition succeeds exactly when the caller is an admin,
both teams have exactly 5 ids, the union has exactly 10 distinct ids, the
slot exists, and every id resolves to a registered player's user_id or
guest's guest_id; a 4-and-5 split fails with the team-size error, an
overlapping pair of 5-id teams fails with the overlap error (database
unchanged), and a valid disjoint split is stored and reflected, resolved,
in the next current-slot view. -/
theorem C4_thm :
    ∀ (now : Datetime) (db : DB) (tA tB : List String) (adm : String),
    ((set_team_composition now db tA tB adm).2.isOk = true ↔
      ((findAdmin db adm).isSome = true ∧ tA.length = 5 ∧ tB.length = 5 ∧
       (tA ++ tB).dedup.length = 10 ∧
       ∃ s, findSlot db (get_next_wednesday_at_19 now) = some s ∧
         ∀ pid ∈ tA ++ tB,
           (s.players.map (fun p => p.user_id) ++
             s.guests.map (fun g => g.guest_id)).contains pid = true)) ∧
    (∀ u, findAdmin db adm = some u → tA.length = 4 → tB.length = 5 →
      set_team_composition now db tA tB adm = (db, .error .teamASizeInvalid)) ∧
    (∀ u, findAdmin db adm = some u → tA.length = 5 → tB.length = 5 →
      (tA ++ tB).dedup.length ≠ 10 →
      set_team_composition now db tA tB adm = (db, .error .teamsOverlap)) ∧
    (∀ u s, findAdmin db adm = some u → tA.length = 5 → tB.length = 5 →
      (tA ++ tB).dedup.length = 10 →
      findSlot db (get_next_wednesday_at_19 now) = some s →
      (∀ pid ∈ tA ++ tB,
        (s.players.map (fun p => p.user_id) ++
          s.guests.map (fun g => g.guest_id)).contains pid = true) →
      findSlot (set_team_composition now db tA tB adm).1 (get_next_wednesday_at_19 now)
        = some { s with teamA := tA, teamB := tB } ∧
      (get_current_slot now (set_team_composition now db tA tB adm).1 none).2.teamA
        = resolveTeam { s with teamA := tA, teamB := tB } tA ∧
      (get_current_slot now (set_team_composition now db tA tB adm).1 none).2.teamB
        = resolveTeam { s with teamA := tA, teamB := tB } tB) := by
  intro now db tA tB adm
  refine ⟨⟨?_, ?_⟩, ?_, ?_, ?_⟩
  · intro hOk
    cases hadm : findAdmin db adm with
    | none =>
      rw [set_teams_eq_noadmin hadm] at hOk
      simp [Except.isOk, Except.toBool] at hOk
    | some u =>
      by_cases hA : tA.length = 5
      case neg =>
        rw [set_teams_eq_sizeA hadm hA] at hOk
        simp [Except.isOk, Except.toBool] at hOk
      case pos =>
      by_cases hB : tB.length = 5
      case neg =>
        rw [set_teams_eq_sizeB hadm hA hB] at hOk
        simp [Except.isOk, Except.toBool] at hOk
      case pos =>
      by_cases hd : (tA ++ tB).dedup.length = 10
      case neg =>
        rw [set_teams_eq_overlap hadm hA hB hd] at hOk
        simp [Except.isOk, Except.toBool] at hOk
      case pos =>
      cases hf : findSlot db (get_next_wednesday_at_19 now) with
      | none =>
        rw [set_teams_eq_noslot hadm hA hB hd hf] at hOk
        simp [Except.isOk, Except.toBool] at hOk
      | some s =>
        cases hfind : (tA ++ tB).find? (fun x =>
            !((s.players.map (fun p => p.user_id) ++
               s.guests.map (fun g => g.guest_id)).contains x)) with
        | some pid =>
          rw [(set_teams_eq_unknown hadm hA hB hd hf hfind :
            set_team_composition now db tA tB adm = (db, .error (.unknownTeamId pid)))] at hOk
          simp [Except.isOk, Except.toBool] at hOk
        | none =>
          refine ⟨rfl, hA, hB, hd, s, rfl, ?_⟩
          intro pid hp
          have hnp := List.find?_eq_none.mp hfind pid hp
          cases hc : ((s.players.map (fun p => p.user_id) ++
              s.guests.map (fun g => g.guest_id)).contains pid) with
          | true => rfl
          | false =>
            exfalso
            apply hnp
            rw [hc]
            rfl
  · rintro ⟨hAdm, hA, hB, hd, s, hf, hall⟩
    obtain ⟨u, hadm⟩ : ∃ u, findAdmin db adm = some u := by
      cases hh : findAdmin db adm with
      | none => rw [hh] at hAdm; simp at hAdm
      | some u => exact ⟨u, rfl⟩
    have hfind : (tA ++ tB).find? (fun x =>
        !((s.players.map (fun p => p.user_id) ++
           s.guests.map (fun g => g.guest_id)).contains x)) = none :=
      List.find?_eq_none.mpr (fun pid hp => by rw [hall pid hp]; decide)
    exact (set_teams_eq_success hadm hA hB hd hf hfind).2.1
  · intro u hadm h4 hB
    exact set_teams_eq_sizeA hadm (by omega)
  · intro u hadm hA hB hd
    exact set_teams_eq_overlap hadm hA hB hd
  · intro u s hadm hA hB hd hf hall
    have hfind : (tA ++ tB).find? (fun x =>
        !((s.players.map (fun p => p.user_id) ++
           s.guests.map (fun g => g.guest_id)).contains x)) = none :=
      List.find?_eq_none.mpr (fun pid hp => by rw [hall pid hp]; decide)
    obtain ⟨h1, h2, h3⟩ := set_teams_eq_success hadm hA hB hd hf hfind
    refine ⟨h3, ?_, ?_⟩
    · simp [get_current_slot, h3]
    · simp [get_current_slot, h3]


/-- C4 witness: a concrete disjoint 5-and-5 split over ten registered
players is stored and shows up resolved in the next view. -/
theorem C4_witness :
    findSlot (set_team_composition ⟨1, 10, 0, 0⟩
        ⟨[⟨⟨2, 19, 0, 0⟩,
           [⟨"1", "a1", ⟨1, 10, 0, 0⟩⟩, ⟨"2", "a2", ⟨1, 10, 0, 0⟩⟩,
            ⟨"3", "a3", ⟨1, 10, 0, 0⟩⟩, ⟨"4", "a4", ⟨1, 10, 0, 0⟩⟩,
            ⟨"5", "a5", ⟨1, 10, 0, 0⟩⟩, ⟨"6", "a6", ⟨1, 10, 0, 0⟩⟩,
            ⟨"7", "a7", ⟨1, 10, 0, 0⟩⟩, ⟨"8", "a8", ⟨1, 10, 0, 0⟩⟩,
            ⟨"9", "a9", ⟨1, 10, 0, 0⟩⟩, ⟨"10", "a10", ⟨1, 10, 0, 0⟩⟩],
           [], [], [], none, none⟩],
         [⟨"u9", "boss", "0000", Role.admin, none⟩], []⟩
        ["1", "2", "3", "4", "5"] ["6", "7", "8", "9", "10"] "boss").1
      (get_next_wednesday_at_19 ⟨1, 10, 0, 0⟩)
    = some ⟨⟨2, 19, 0, 0⟩,
        [⟨"1", "a1", ⟨1, 10, 0, 0⟩⟩, ⟨"2", "a2", ⟨1, 10, 0, 0⟩⟩,
         ⟨"3", "a3", ⟨1, 10, 0, 0⟩⟩, ⟨"4", "a4", ⟨1, 10, 0, 0⟩⟩,
         ⟨"5", "a5", ⟨1, 10, 0, 0⟩⟩, ⟨"6", "a6", ⟨1, 10, 0, 0⟩⟩,
         ⟨"7", "a7", ⟨1, 10, 0, 0⟩⟩, ⟨"8", "a8", ⟨1, 10, 0, 0⟩⟩,
         ⟨"9", "a9", ⟨1, 10, 0, 0⟩⟩, ⟨"10", "a10", ⟨1, 10, 0, 0⟩⟩],
        [], ["1", "2", "3", "4", "5"], ["6", "7", "8", "9", "10"], none, none⟩ ∧
    (get_current_slot ⟨1, 10, 0, 0⟩ (set_team_composition ⟨1, 10, 0, 0⟩
        ⟨[⟨⟨2, 19, 0, 0⟩,
           [⟨"1", "a1", ⟨1, 10, 0, 0⟩⟩, ⟨"2", "a2", ⟨1, 10, 0, 0⟩⟩,
            ⟨"3", "a3", ⟨1, 10, 0, 0⟩⟩, ⟨"4", "a4", ⟨1, 10, 0, 0⟩⟩,
            ⟨"5", "a5", ⟨1, 10, 0, 0⟩⟩, ⟨"6", "a6", ⟨1, 10, 0, 0⟩⟩,
            ⟨"7", "a7", ⟨1, 10, 0, 0⟩⟩, ⟨"8", "a8", ⟨1, 10, 0, 0⟩⟩,
            ⟨"9", "a9", ⟨1, 10, 0, 0⟩⟩, ⟨"10", "a10", ⟨1, 10, 0, 0⟩⟩],
           [], [], [], none, none⟩],
         [⟨"u9", "boss", "0000", Role.admin, none⟩], []⟩
        ["1", "2", "3", "4", "5"] ["6", "7", "8", "9", "10"] "boss").1 none).2.teamA
    = resolveTeam ⟨⟨2, 19, 0, 0⟩,
        [⟨"1", "a1", ⟨1, 10, 0, 0⟩⟩, ⟨"2", "a2", ⟨1, 10, 0, 0⟩⟩,
         ⟨"3", "a3", ⟨1, 10, 0, 0⟩⟩, ⟨"4", "a4", ⟨1, 10, 0, 0⟩⟩,
         ⟨"5", "a5", ⟨1, 10, 0, 0⟩⟩, ⟨"6", "a6", ⟨1, 10, 0, 0⟩⟩,
         ⟨"7", "a7", ⟨1, 10, 0, 0⟩⟩, ⟨"8", "a8", ⟨1, 10, 0, 0⟩⟩,
         ⟨"9", "a9", ⟨1, 10, 0, 0⟩⟩, ⟨"10", "a10", ⟨1, 10, 0, 0⟩⟩],
        [], ["1", "2", "3", "4", "5"], ["6", "7", "8", "9", "10"], none, none⟩
        ["1", "2", "3", "4", "5"] := by
  have h := (C4_thm ⟨1, 10, 0, 0⟩
    ⟨[⟨⟨2, 19, 0, 0⟩,
       [⟨"1", "a1", ⟨1, 10, 0, 0⟩⟩, ⟨"2", "a2", ⟨1, 10, 0, 0⟩⟩,
        ⟨"3", "a3", ⟨1, 10, 0, 0⟩⟩, ⟨"4", "a4", ⟨1, 10, 0, 0⟩⟩,
        ⟨"5", "a5", ⟨1, 10, 0, 0⟩⟩, ⟨"6", "a6", ⟨1, 10, 0, 0⟩⟩,
        ⟨"7", "a7", ⟨1, 10, 0, 0⟩⟩, ⟨"8", "a8", ⟨1, 10, 0, 0⟩⟩,
        ⟨"9", "a9", ⟨1, 10, 0, 0⟩⟩, ⟨"10", "a10", ⟨1, 10, 0, 0⟩⟩],
       [], [], [], none, none⟩],
     [⟨"u9", "boss", "0000", Role.admin, none⟩], []⟩
    ["1", "2", "3", "4", "5"] ["6", "7", "8", "9", "10"] "boss").2.2.2
    ⟨"u9", "boss", "0000", Role.admin, none⟩
    ⟨⟨2, 19, 0, 0⟩,
       [⟨"1", "a1", ⟨1, 10, 0, 0⟩⟩, ⟨"2", "a2", ⟨1, 10, 0, 0⟩⟩,
        ⟨"3", "a3", ⟨1, 10, 0, 0⟩⟩, ⟨"4", "a4", ⟨1, 10, 0, 0⟩⟩,
        ⟨"5", "a5", ⟨1, 10, 0, 0⟩⟩, ⟨"6", "a6", ⟨1, 10, 0, 0⟩⟩,
        ⟨"7", "a7", ⟨1, 10, 0, 0⟩⟩, ⟨"8", "a8", ⟨1, 10, 0, 0⟩⟩,
        ⟨"9", "a9", ⟨1, 10, 0, 0⟩⟩, ⟨"10", "a10", ⟨1, 10, 0, 0⟩⟩],
       [], [], [], none, none⟩
    (by decide) (by decide) (by decide) (by decide) (by decide) (by decide)
  exact ⟨h.1, h.2.1⟩


theorem signup_eq_badpin {now : Datetime} {db : DB} {username pin tok new_id : String}
    (h : ¬ (pin.length = 4 ∧ pyIsDigit pin = true)) :
    signup now db username pin tok new_id = (db, .error .invalidPin) := by
  unfold signup
  rw [if_pos ?_]
  by_cases h1 : pin.length = 4
  · by_cases h2 : pyIsDigit pin = true
    · exact absurd ⟨h1, h2⟩ h
    · simp [h2]
  · simp [h1]

theorem signup_eq_username_taken {now : Datetime} {db : DB} {username pin tok new_id : String}
    {u : User}
    (hpin : pin.length = 4 ∧ pyIsDigit pin = true)
    (hu : db.users.find? (fun x => x.username == username) = some u) :
    signup now db username pin tok new_id = (db, .error .usernameTaken) := by
  unfold signup
  rw [if_neg (by simp [hpin.1, hpin.2]), if_pos (by rw [hu]; rfl)]

theorem signup_eq_no_token {now : Datetime} {db : DB} {username pin tok new_id : String}
    (hpin : pin.length = 4 ∧ pyIsDigit pin = true)
    (hu : db.users.find? (fun x => x.username == username) = none)
    (ht : db.invitations.find? (fun x => x.token == tok) = none) :
    signup now db username pin tok new_id = (db, .error .tokenNotFound) := by
  unfold signup
  rw [if_neg (by simp [hpin.1, hpin.2]), if_neg (by rw [hu]; simp), ht]

theorem signup_eq_expired {now : Datetime} {db : DB} {username pin tok new_id : String}
    {t : InvitationToken}
    (hpin : pin.length = 4 ∧ pyIsDigit pin = true)
    (hu : db.users.find? (fun x => x.username == username) = none)
    (ht : db.invitations.find? (fun x => x.token == tok) = some t)
    (hexp : t.expiresAt.ticks < now.ticks) :
    signup now db username pin tok new_id = (db, .error .tokenExpired) := by
  unfold signup
  rw [if_neg (by simp [hpin.1, hpin.2]), if_neg (by rw [hu]; simp), ht]
  dsimp only
  rw [if_pos hexp]

theorem signup_eq_success {now : Datetime} {db : DB} {username pin tok new_id : String}
    {t : InvitationToken}
    (hpin : pin.length = 4 ∧ pyIsDigit pin = true)
    (hu : db.users.find? (fun x => x.username == username) = none)
    (ht : db.invitations.find? (fun x => x.token == tok) = some t)
    (hexp : now.ticks ≤ t.expiresAt.ticks) :
    signup now db username pin tok new_id =
      ({ db with
         users := db.users ++ [⟨new_id, username, pin, Role.user,
           (db.users.find? (fun x => x.username == t.createdBy)).map (fun a => a._id)⟩],
         invitations := db.invitations.eraseP (fun x => x.token == tok) }, .ok ()) := by
  unfold signup
  rw [if_neg (by simp [hpin.1, hpin.2]), if_neg (by rw [hu]; simp), ht]
  dsimp only
  rw [if_neg (Nat.not_lt.mpr hexp)]

theorem find?_eraseP_self {α : Type} (p : α → Bool) (l : List α)
    (h : (l.filter p).length ≤ 1) :
    (l.eraseP p).find? p = none := by
  induction l with
  | nil => simp
  | cons a rest ih =>
    by_cases ha : p a = true
    · rw [List.eraseP_cons_of_pos ha]
      rw [List.find?_eq_none]
      intro x hx
      have hzero : (rest.filter p).length = 0 := by
        rw [List.filter_cons_of_pos ha] at h
        simp only [List.length_cons] at h
        omega
      have : rest.filter p = [] := List.length_eq_zero.mp hzero
      exact (List.filter_eq_nil_iff.mp this) x hx
    · rw [List.eraseP_cons_of_neg ha, List.find?_cons_of_neg _ ha]
      apply ih
      rw [List.filter_cons_of_neg ha] at h
      exact h


/-- C5: signup succeeds exactly when the pin is four digits, the username
is unused, the token exists, and now is at or before its expiry; on
success it appends a user whose invitedBy is the token issuer's id and
deletes the token document, so — when the token string occurred only once —
a second redemption attempt with the same token fails with tokenNotFound
and leaves the database (hence the users) unchanged. -/
theorem C5_thm :
    ∀ (now : Datetime) (db : DB) (username pin tok new_id : String),
    ((signup now db username pin tok new_id).2.isOk = true ↔
      ((pin.length = 4 ∧ pyIsDigit pin = true) ∧
       db.users.find? (fun x => x.username == username) = none ∧
       ∃ t, db.invitations.find? (fun x => x.token == tok) = some t ∧
         now.ticks ≤ t.expiresAt.ticks)) ∧
    (∀ t a, (pin.length = 4 ∧ pyIsDigit pin = true) →
      db.users.find? (fun x => x.username == username) = none →
      db.invitations.find? (fun x => x.token == tok) = some t →
      now.ticks ≤ t.expiresAt.ticks →
      db.users.find? (fun x => x.username == t.createdBy) = some a →
      signup now db username pin tok new_id =
        ({ db with
           users := db.users ++ [⟨new_id, username, pin, Role.user, some a._id⟩],
           invitations := db.invitations.eraseP (fun x => x.token == tok) }, .ok ())) ∧
    (∀ t username2 pin2 new_id2, (pin.length = 4 ∧ pyIsDigit pin = true) →
      db.users.find? (fun x => x.username == username) = none →
      db.invitations.find? (fun x => x.token == tok) = some t →
      now.ticks ≤ t.expiresAt.ticks →
      (db.invitations.filter (fun x => x.token == tok)).length ≤ 1 →
      (pin2.length = 4 ∧ pyIsDigit pin2 = true) →
      (signup now db username pin tok new_id).1.users.find?
        (fun x => x.username == username2) = none →
      signup now ((signup now db username pin tok new_id).1) username2 pin2 tok new_id2 =
        ((signup now db username pin tok new_id).1, .error .tokenNotFound)) := by
  intro now db username pin tok new_id
  refine ⟨⟨?_, ?_⟩, ?_, ?_⟩
  · intro hOk
    by_cases hpin : pin.length = 4 ∧ pyIsDigit pin = true
    case neg =>
      rw [signup_eq_badpin hpin] at hOk
      simp [Except.isOk, Except.toBool] at hOk
    case pos =>
    cases hu : db.users.find? (fun x => x.username == username) with
    | some u =>
      rw [signup_eq_username_taken hpin hu] at hOk
      simp [Except.isOk, Except.toBool] at hOk
    | none =>
      cases ht : db.invitations.find? (fun x => x.token == tok) with
      | none =>
        rw [signup_eq_no_token hpin hu ht] at hOk
        simp [Except.isOk, Except.toBool] at hOk
      | some t =>
        by_cases hexp : now.ticks ≤ t.expiresAt.ticks
        case neg =>
          rw [signup_eq_expired hpin hu ht (by omega)] at hOk
          simp [Except.isOk, Except.toBool] at hOk
        case pos =>
          exact ⟨hpin, rfl, t, rfl, hexp⟩
  · rintro ⟨hpin, hu, t, ht, hexp⟩
    rw [signup_eq_success hpin hu ht hexp]
    rfl
  · intro t a hpin hu ht hexp hadm
    rw [signup_eq_success hpin hu ht hexp, hadm]
    rfl
  · intro t username2 pin2 new_id2 hpin hu ht hexp honce hpin2 hu2
    have heq := @signup_eq_success now db username pin tok new_id t hpin hu ht hexp
    rw [heq] at hu2 ⊢
    dsimp only at hu2 ⊢
    refine signup_eq_no_token hpin2 hu2 ?_
    exact find?_eraseP_self (fun x => x.token == tok) db.invitations honce

/-- C5 witness: a concrete token is redeemed once, producing the invited
user and consuming the token; the second attempt fails with tokenNotFound
and changes nothing. -/
theorem C5_witness :
    signup ⟨1, 10, 0, 0⟩
        ⟨[], [⟨"u9", "boss", "0000", Role.admin, none⟩],
         [⟨"123456", "boss", ⟨10, 0, 0, 0⟩⟩]⟩ "dave" "4321" "123456" "u3"
      = (⟨[], [⟨"u9", "boss", "0000", Role.admin, none⟩,
               ⟨"u3", "dave", "4321", Role.user, some "u9"⟩], []⟩, .ok ()) ∧
    signup ⟨1, 10, 0, 0⟩
        (signup ⟨1, 10, 0, 0⟩
          ⟨[], [⟨"u9", "boss", "0000", Role.admin, none⟩],
           [⟨"123456", "boss", ⟨10, 0, 0, 0⟩⟩]⟩ "dave" "4321" "123456" "u3").1
        "erin" "1111" "123456" "u4"
      = ((signup ⟨1, 10, 0, 0⟩
          ⟨[], [⟨"u9", "boss", "0000", Role.admin, none⟩],
           [⟨"123456", "boss", ⟨10, 0, 0, 0⟩⟩]⟩ "dave" "4321" "123456" "u3").1,
         .error .tokenNotFound) := by
  constructor
  · have h := (C5_thm ⟨1, 10, 0, 0⟩
      ⟨[], [⟨"u9", "boss", "0000", Role.admin, none⟩],
       [⟨"123456", "boss", ⟨10, 0, 0, 0⟩⟩]⟩ "dave" "4321" "123456" "u3").2.1
      ⟨"123456", "boss", ⟨10, 0, 0, 0⟩⟩ ⟨"u9", "boss", "0000", Role.admin, none⟩
      (by decide) (by decide) (by decide) (by decide) (by decide)
    exact h
  · exact (C5_thm ⟨1, 10, 0, 0⟩
      ⟨[], [⟨"u9", "boss", "0000", Role.admin, none⟩],
       [⟨"123456", "boss", ⟨10, 0, 0, 0⟩⟩]⟩ "dave" "4321" "123456" "u3").2.2
      ⟨"123456", "boss", ⟨10, 0, 0, 0⟩⟩ "erin" "1111" "u4"
      (by decide) (by decide) (by decide) (by decide) (by decide) (by decide) (by decide)


theorem unregister_eq_player_forbidden {now : Datetime} {db : DB} {pn u : String}
    {user : User} {s : Slot} {player : PlayerEntry}
    (hu : findUser db u = some user)
    (hf : findSlot db (get_next_wednesday_at_19 now) = some s)
    (hp : s.players.find? (fun p => p.username == pn) = some player)
    (hna : user.role ≠ Role.admin)
    (hns : player.user_id ≠ user._id) :
    unregister_player now db pn u = (db, .error .forbidden) := by
  unfold unregister_player
  rw [hu]
  dsimp only
  rw [hf]
  dsimp only
  rw [hp]
  dsimp only
  rw [if_neg (by simp [hna, hns])]

theorem unregister_eq_player_success {now : Datetime} {db : DB} {pn u : String}
    {user : User} {s : Slot} {player : PlayerEntry}
    (hu : findUser db u = some user)
    (hf : findSlot db (get_next_wednesday_at_19 now) = some s)
    (hp : s.players.find? (fun p => p.username == pn) = some player)
    (hauth : (user.role == Role.admin || player.user_id == user._id) = true) :
    unregister_player now db pn u =
      (updateSlot db (get_next_wednesday_at_19 now)
         (fun x => { x with players := x.players.filter (fun p => !(p.username == pn)) }),
       .ok (unregisterResponse
         { s with players := s.players.filter (fun p => !(p.username == pn)) })) := by
  have hself := @findSlot_updateSlot_self db (get_next_wednesday_at_19 now)
    (fun x => { x with players := x.players.filter (fun p => !(p.username == pn)) }) s hf rfl
  unfold unregister_player
  rw [hu]
  dsimp only
  rw [hf]
  dsimp only
  rw [hp]
  dsimp only
  rw [if_pos hauth]
  dsimp only
  rw [if_neg (by simp)]
  dsimp only
  rw [if_neg (by simp)]
  rw [hself]
  rfl

theorem unregister_eq_guest_forbidden {now : Datetime} {db : DB} {pn u : String}
    {user : User} {s : Slot} {gname : String} {guest : GuestEntry}
    (hu : findUser db u = some user)
    (hf : findSlot db (get_next_wednesday_at_19 now) = some s)
    (hp : s.players.find? (fun p => p.username == pn) = none)
    (hsw : pyStartsWith pn "(Invité)" = true)
    (hparse : parseGuestTarget pn = some gname)
    (hg : s.guests.find? (fun g => g.name == gname) = some guest)
    (hna : user.role ≠ Role.admin)
    (hns : guest.invitedBy_id ≠ user._id) :
    unregister_player now db pn u = (db, .error .forbidden) := by
  unfold unregister_player
  rw [hu]
  dsimp only
  rw [hf]
  dsimp only
  rw [hp]
  dsimp only
  rw [if_pos (by simp [hsw]), hparse]
  dsimp only
  rw [hg]
  dsimp only
  rw [if_neg (by simp [hna, hns])]

theorem unregister_eq_guest_success {now : Datetime} {db : DB} {pn u : String}
    {user : User} {s : Slot} {gname : String} {guest : GuestEntry}
    (hu : findUser db u = some user)
    (hf : findSlot db (get_next_wednesday_at_19 now) = some s)
    (hp : s.players.find? (fun p => p.username == pn) = none)
    (hsw : pyStartsWith pn "(Invité)" = true)
    (hparse : parseGuestTarget pn = some gname)
    (hg : s.guests.find? (fun g => g.name == gname) = some guest)
    (hauth : (user.role == Role.admin || guest.invitedBy_id == user._id) = true) :
    unregister_player now db pn u =
      (updateSlot db (get_next_wednesday_at_19 now)
         (fun x => { x with guests := x.guests.filter (fun g => !(g.name == gname)) }),
       .ok (unregisterResponse
         { s with guests := s.guests.filter (fun g => !(g.name == gname)) })) := by
  have hself := @findSlot_updateSlot_self db (get_next_wednesday_at_19 now)
    (fun x => { x with guests := x.guests.filter (fun g => !(g.name == gname)) }) s hf rfl
  unfold unregister_player
  rw [hu]
  dsimp only
  rw [hf]
  dsimp only
  rw [hp]
  dsimp only
  rw [if_pos (by simp [hsw]), hparse]
  dsimp only
  rw [hg]
  dsimp only
  rw [if_pos hauth]
  dsimp only
  rw [if_neg (by simp)]
  rw [hself]
  rfl

theorem updateSlotList_cancel {d : Datetime} {f g : Slot → Slot} {l : List Slot} {s : Slot}
    (hfind : l.find? (fun x => x.date == d) = some s)
    (hdate : (g s).date = s.date)
    (hcancel : f (g s) = s) :
    updateSlotList d f (updateSlotList d g l) = l := by
  induction l with
  | nil => simp at hfind
  | cons a rest ih =>
    by_cases hd : (a.date == d) = true
    · rw [@List.find?_cons_of_pos _ (fun x => x.date == d) a rest hd] at hfind
      injection hfind with hfind
      subst hfind
      simp only [updateSlotList, if_pos hd]
      simp only [updateSlotList, if_pos (show ((g a).date == d) = true by rw [hdate]; exact hd)]
      rw [hcancel]
    · rw [@List.find?_cons_of_neg _ (fun x => x.date == d) a rest hd] at hfind
      simp only [updateSlotList, if_neg hd]
      rw [ih hfind]


/-- C3 (amended): unregister resolves the target first against players by
username and only otherwise against guests by parsing the display string;
an authenticated actor who is neither admin, nor the matched player, nor
the matched guest's inviter fails with the authorization error and the
database is unchanged; an admin always succeeds when the target exists, the
result being the slot with every entry matching the resolved name removed
and everything else unchanged; and when player usernames (resp. guest
names) are duplicate-free, exactly one entry is removed. -/
theorem C3_thm :
    ∀ (now : Datetime) (db : DB) (pn username : String),
    (∀ actor s player, findUser db username = some actor →
      findSlot db (get_next_wednesday_at_19 now) = some s →
      s.players.find? (fun p => p.username == pn) = some player →
      actor.role ≠ Role.admin → player.user_id ≠ actor._id →
      unregister_player now db pn username = (db, .error .forbidden)) ∧
    (∀ actor s gname guest, findUser db username = some actor →
      findSlot db (get_next_wednesday_at_19 now) = some s →
      s.players.find? (fun p => p.username == pn) = none →
      pyStartsWith pn "(Invité)" = true →
      parseGuestTarget pn = some gname →
      s.guests.find? (fun g => g.name == gname) = some guest →
      actor.role ≠ Role.admin → guest.invitedBy_id ≠ actor._id →
      unregister_player now db pn username = (db, .error .forbidden)) ∧
    (∀ actor s player, findUser db username = some actor → actor.role = Role.admin →
      findSlot db (get_next_wednesday_at_19 now) = some s →
      s.players.find? (fun p => p.username == pn) = some player →
      (unregister_player now db pn username).2.isOk = true ∧
      findSlot (unregister_player now db pn username).1 (get_next_wednesday_at_19 now)
        = some { s with players := s.players.filter (fun p => !(p.username == pn)) }) ∧
    (∀ actor s gname guest, findUser db username = some actor → actor.role = Role.admin →
      findSlot db (get_next_wednesday_at_19 now) = some s →
      s.players.find? (fun p => p.username == pn) = none →
      pyStartsWith pn "(Invité)" = true →
      parseGuestTarget pn = some gname →
      s.guests.find? (fun g => g.name == gname) = some guest →
      (unregister_player now db pn username).2.isOk = true ∧
      findSlot (unregister_player now db pn username).1 (get_next_wednesday_at_19 now)
        = some { s with guests := s.guests.filter (fun g => !(g.name == gname)) }) ∧
    (∀ actor s player, findUser db username = some actor →
      findSlot db (get_next_wednesday_at_19 now) = some s →
      s.players.find? (fun p => p.username == pn) = some player →
      (actor.role == Role.admin || player.user_id == actor._id) = true →
      (s.players.map (fun p => p.username)).Nodup →
      (s.players.filter (fun p => !(p.username == pn))).length + 1 = s.players.length) ∧
    (∀ actor s gname guest, findUser db username = some actor →
      findSlot db (get_next_wednesday_at_19 now) = some s →
      s.players.find? (fun p => p.username == pn) = none →
      pyStartsWith pn "(Invité)" = true →
      parseGuestTarget pn = some gname →
      s.guests.find? (fun g => g.name == gname) = some guest →
      (actor.role == Role.admin || guest.invitedBy_id == actor._id) = true →
      (s.guests.map (fun g => g.name)).Nodup →
      (s.guests.filter (fun g => !(g.name == gname))).length + 1 = s.guests.length) := by
  intro now db pn username
  refine ⟨?_, ?_, ?_, ?_, ?_, ?_⟩
  · intro actor s player hu hf hp hna hns
    exact unregister_eq_player_forbidden hu hf hp hna hns
  · intro actor s gname guest hu hf hp hsw hparse hg hna hns
    exact unregister_eq_guest_forbidden hu hf hp hsw hparse hg hna hns
  · intro actor s player hu hadmin hf hp
    have heq := unregister_eq_player_success hu hf hp (by simp [hadmin])
    rw [heq]
    exact ⟨rfl, @findSlot_updateSlot_self db (get_next_wednesday_at_19 now)
      (fun x => { x with players := x.players.filter (fun p => !(p.username == pn)) }) s hf rfl⟩
  · intro actor s gname guest hu hadmin hf hp hsw hparse hg
    have heq := unregister_eq_guest_success hu hf hp hsw hparse hg (by simp [hadmin])
    rw [heq]
    exact ⟨rfl, @findSlot_updateSlot_self db (get_next_wednesday_at_19 now)
      (fun x => { x with guests := x.guests.filter (fun g => !(g.name == gname)) }) s hf rfl⟩
  · intro actor s player hu hf hp hauth hnodup
    have hmem := List.mem_of_find?_eq_some hp
    have hpred := List.find?_some hp
    have hpos : 0 < s.players.countP (fun p => p.username == pn) :=
      List.countP_pos_iff.mpr ⟨player, hmem, hpred⟩
    have hle : s.players.countP (fun p => p.username == pn) ≤ 1 := by
      have h1 := List.nodup_iff_count_le_one.mp hnodup pn
      rw [List.count_eq_countP, List.countP_map] at h1
      exact h1
    have heq1 : s.players.countP (fun p => p.username == pn) = 1 := by omega
    have hlen := @List.length_eq_length_filter_add _ s.players (fun p => p.username == pn)
    rw [← List.countP_eq_length_filter, heq1] at hlen
    omega
  · intro actor s gname guest hu hf hp hsw hparse hg hauth hnodup
    have hmem := List.mem_of_find?_eq_some hg
    have hpred := List.find?_some hg
    have hpos : 0 < s.guests.countP (fun g => g.name == gname) :=
      List.countP_pos_iff.mpr ⟨guest, hmem, hpred⟩
    have hle : s.guests.countP (fun g => g.name == gname) ≤ 1 := by
      have h1 := List.nodup_iff_count_le_one.mp hnodup gname
      rw [List.count_eq_countP, List.countP_map] at h1
      exact h1
    have heq1 : s.guests.countP (fun g => g.name == gname) = 1 := by omega
    have hlen := @List.length_eq_length_filter_add _ s.guests (fun g => g.name == gname)
    rw [← List.countP_eq_length_filter, heq1] at hlen
    omega

/-- C3 counterexample: in a slot holding two player entries that share the
username "alice" (distinct user_ids "u1", "u2" — a state the stated slot
invariants allow and that is reachable after account deletion and
re-signup), an admin unregister of "alice" succeeds and removes BOTH
entries, not exactly one: the resulting slot is empty although the claim
predicts one remaining entry. -/
theorem C3_counterexample :
    (⟨⟨2, 19, 0, 0⟩,
      [⟨"u1", "alice", ⟨1, 10, 0, 0⟩⟩, ⟨"u2", "alice", ⟨1, 10, 0, 0⟩⟩],
      [], [], [], none, none⟩ : Slot).players.length = 2 ∧
    (unregister_player ⟨1, 10, 0, 0⟩
      ⟨[⟨⟨2, 19, 0, 0⟩,
         [⟨"u1", "alice", ⟨1, 10, 0, 0⟩⟩, ⟨"u2", "alice", ⟨1, 10, 0, 0⟩⟩],
         [], [], [], none, none⟩],
        [⟨"u9", "boss", "0000", Role.admin, none⟩], []⟩ "alice" "boss").2.isOk = true ∧
    findSlot (unregister_player ⟨1, 10, 0, 0⟩
      ⟨[⟨⟨2, 19, 0, 0⟩,
         [⟨"u1", "alice", ⟨1, 10, 0, 0⟩⟩, ⟨"u2", "alice", ⟨1, 10, 0, 0⟩⟩],
         [], [], [], none, none⟩],
        [⟨"u9", "boss", "0000", Role.admin, none⟩], []⟩ "alice" "boss").1
      (get_next_wednesday_at_19 ⟨1, 10, 0, 0⟩)
      = some ⟨⟨2, 19, 0, 0⟩, [], [], [], [], none, none⟩ := by
  decide

/-- C3 witness: a concrete non-admin, non-owner actor is refused with the
database unchanged, and a concrete admin removal succeeds. -/
theorem C3_witness :
    unregister_player ⟨1, 10, 0, 0⟩
      ⟨[⟨⟨2, 19, 0, 0⟩, [⟨"u1", "alice", ⟨1, 10, 0, 0⟩⟩], [], [], [], none, none⟩],
       [⟨"u1", "alice", "1234", Role.user, none⟩,
        ⟨"u2", "carol", "1111", Role.user, none⟩,
        ⟨"u9", "boss", "0000", Role.admin, none⟩], []⟩ "alice" "carol"
      = (⟨[⟨⟨2, 19, 0, 0⟩, [⟨"u1", "alice", ⟨1, 10, 0, 0⟩⟩], [], [], [], none, none⟩],
          [⟨"u1", "alice", "1234", Role.user, none⟩,
           ⟨"u2", "carol", "1111", Role.user, none⟩,
           ⟨"u9", "boss", "0000", Role.admin, none⟩], []⟩, .error .forbidden) ∧
    (unregister_player ⟨1, 10, 0, 0⟩
      ⟨[⟨⟨2, 19, 0, 0⟩, [⟨"u1", "alice", ⟨1, 10, 0, 0⟩⟩], [], [], [], none, none⟩],
       [⟨"u1", "alice", "1234", Role.user, none⟩,
        ⟨"u2", "carol", "1111", Role.user, none⟩,
        ⟨"u9", "boss", "0000", Role.admin, none⟩], []⟩ "alice" "boss").2.isOk = true :=
  ⟨(C3_thm ⟨1, 10, 0, 0⟩
      ⟨[⟨⟨2, 19, 0, 0⟩, [⟨"u1", "alice", ⟨1, 10, 0, 0⟩⟩], [], [], [], none, none⟩],
       [⟨"u1", "alice", "1234", Role.user, none⟩,
        ⟨"u2", "carol", "1111", Role.user, none⟩,
        ⟨"u9", "boss", "0000", Role.admin, none⟩], []⟩ "alice" "carol").1
    ⟨"u2", "carol", "1111", Role.user, none⟩
    ⟨⟨2, 19, 0, 0⟩, [⟨"u1", "alice", ⟨1, 10, 0, 0⟩⟩], [], [], [], none, none⟩
    ⟨"u1", "alice", ⟨1, 10, 0, 0⟩⟩
    (by decide) (by decide) (by decide) (by decide) (by decide),
   ((C3_thm ⟨1, 10, 0, 0⟩
      ⟨[⟨⟨2, 19, 0, 0⟩, [⟨"u1", "alice", ⟨1, 10, 0, 0⟩⟩], [], [], [], none, none⟩],
       [⟨"u1", "alice", "1234", Role.user, none⟩,
        ⟨"u2", "carol", "1111", Role.user, none⟩,
        ⟨"u9", "boss", "0000", Role.admin, none⟩], []⟩ "alice" "boss").2.2.1
    ⟨"u9", "boss", "0000", Role.admin, none⟩
    ⟨⟨2, 19, 0, 0⟩, [⟨"u1", "alice", ⟨1, 10, 0, 0⟩⟩], [], [], [], none, none⟩
    ⟨"u1", "alice", ⟨1, 10, 0, 0⟩⟩
    (by decide) (by decide) (by decide) (by decide)).1⟩


/-- C8 (amended): whenever a registration of player p succeeds on an
existing slot none of whose entries shares p's username, immediately
self-unregistering succeeds and restores the database — hence the slot's
player list and occupant count — exactly to its prior state. -/
theorem C8_thm :
    ∀ (now : Datetime) (db : DB) (username : String) (user : User) (s : Slot),
    is_registration_open now = true →
    findUser db username = some user →
    findSlot db (get_next_wednesday_at_19 now) = some s →
    s.players.length + s.guests.length < MAX_PLAYERS →
    ((s.players.map (fun p => p.user_id)).contains user._id) = false →
    (∀ p ∈ s.players, p.username ≠ username) →
    (register_player now db username).2.isOk = true ∧
    (unregister_player now (register_player now db username).1 username username).1 = db ∧
    (unregister_player now (register_player now db username).1 username username).2.isOk
      = true ∧
    findSlot (unregister_player now (register_player now db username).1 username username).1
      (get_next_wednesday_at_19 now) = some s := by
  intro now db username user s ho hu hf hcap hdup hname
  have heq1 := register_player_eq_success ho hu hf hcap hdup
  have hu' : findUser (updateSlot db (get_next_wednesday_at_19 now)
      (fun x => { x with players := x.players ++ [⟨user._id, username, now⟩] })) username
      = some user := hu
  have hself := @findSlot_updateSlot_self db (get_next_wednesday_at_19 now)
    (fun x => { x with players := x.players ++ [⟨user._id, username, now⟩] }) s hf rfl
  have hp' : (({ s with players := s.players ++ [(⟨user._id, username, now⟩ : PlayerEntry)] }
        : Slot)).players.find? (fun p => p.username == username)
      = some (⟨user._id, username, now⟩ : PlayerEntry) := by
    show (s.players ++ [(⟨user._id, username, now⟩ : PlayerEntry)]).find?
        (fun p => p.username == username) = some (⟨user._id, username, now⟩ : PlayerEntry)
    rw [List.find?_append,
      List.find?_eq_none.mpr (fun x hx => by simp [hname x hx])]
    simp [List.find?]
  have heq2 := unregister_eq_player_success hu' hself hp' (by simp)
  have hfilter : (s.players ++ [(⟨user._id, username, now⟩ : PlayerEntry)]).filter
      (fun p => !(p.username == username)) = s.players := by
    rw [List.filter_append]
    have h1 : s.players.filter (fun p => !(p.username == username)) = s.players :=
      List.filter_eq_self.mpr (fun a ha => by simp [hname a ha])
    have h2 : ([(⟨user._id, username, now⟩ : PlayerEntry)] : List PlayerEntry).filter
        (fun p => !(p.username == username)) = [] := by simp
    rw [h1, h2, List.append_nil]
  have hcancel :
      (fun x => { x with players := x.players.filter (fun p => !(p.username == username)) })
        ((fun x => { x with players := x.players ++ [(⟨user._id, username, now⟩ : PlayerEntry)] }) s)
      = s := by
    show ({ s with players :=
        ((s.players ++ [(⟨user._id, username, now⟩ : PlayerEntry)]).filter
          (fun p => !(p.username == username))) } : Slot) = s
    rw [hfilter]
  have hdb : updateSlot (updateSlot db (get_next_wednesday_at_19 now)
      (fun x => { x with players := x.players ++ [⟨user._id, username, now⟩] }))
      (get_next_wednesday_at_19 now)
      (fun x => { x with players := x.players.filter (fun p => !(p.username == username)) })
      = db := by
    unfold updateSlot
    dsimp only
    rw [updateSlotList_cancel hf rfl hcancel]
  rw [heq1, heq2]
  refine ⟨rfl, hdb, rfl, ?_⟩
  rw [hdb]
  exact hf

/-- C8 witness: a concrete register-then-self-unregister run restores the
initial database exactly. -/
theorem C8_witness :
    (register_player ⟨1, 10, 0, 0⟩
      ⟨[⟨⟨2, 19, 0, 0⟩, [], [], [], [], none, none⟩],
       [⟨"u1", "alice", "1234", Role.user, none⟩], []⟩ "alice").2.isOk = true ∧
    (unregister_player ⟨1, 10, 0, 0⟩
      (register_player ⟨1, 10, 0, 0⟩
        ⟨[⟨⟨2, 19, 0, 0⟩, [], [], [], [], none, none⟩],
         [⟨"u1", "alice", "1234", Role.user, none⟩], []⟩ "alice").1 "alice" "alice").1
      = ⟨[⟨⟨2, 19, 0, 0⟩, [], [], [], [], none, none⟩],
         [⟨"u1", "alice", "1234", Role.user, none⟩], []⟩ ∧
    (unregister_player ⟨1, 10, 0, 0⟩
      (register_player ⟨1, 10, 0, 0⟩
        ⟨[⟨⟨2, 19, 0, 0⟩, [], [], [], [], none, none⟩],
         [⟨"u1", "alice", "1234", Role.user, none⟩], []⟩ "alice").1 "alice" "alice").2.isOk
      = true ∧
    findSlot (unregister_player ⟨1, 10, 0, 0⟩
      (register_player ⟨1, 10, 0, 0⟩
        ⟨[⟨⟨2, 19, 0, 0⟩, [], [], [], [], none, none⟩],
         [⟨"u1", "alice", "1234", Role.user, none⟩], []⟩ "alice").1 "alice" "alice").1
      (get_next_wednesday_at_19 ⟨1, 10, 0, 0⟩)
      = some ⟨⟨2, 19, 0, 0⟩, [], [], [], [], none, none⟩ :=
  C8_thm ⟨1, 10, 0, 0⟩
    ⟨[⟨⟨2, 19, 0, 0⟩, [], [], [], [], none, none⟩],
     [⟨"u1", "alice", "1234", Role.user, none⟩], []⟩ "alice"
    ⟨"u1", "alice", "1234", Role.user, none⟩
    ⟨⟨2, 19, 0, 0⟩, [], [], [], [], none, none⟩
    (by decide) (by decide) (by decide) (by decide) (by decide) (by decide)

/-- C8 counterexample: with a prior player entry ("u1", "alice") left from
a deleted account, registration of the new user "alice" ("u2") succeeds,
but the immediate self-unregister hits the older same-username entry first
and fails with the authorization error, so register-then-unregister is not
the identity on every slot state. -/
theorem C8_counterexample :
    (register_player ⟨1, 10, 0, 0⟩
      ⟨[⟨⟨2, 19, 0, 0⟩, [⟨"u1", "alice", ⟨1, 9, 0, 0⟩⟩], [], [], [], none, none⟩],
       [⟨"u2", "alice", "1234", Role.user, none⟩], []⟩ "alice").2.isOk = true ∧
    unregister_player ⟨1, 10, 0, 0⟩
      (register_player ⟨1, 10, 0, 0⟩
        ⟨[⟨⟨2, 19, 0, 0⟩, [⟨"u1", "alice", ⟨1, 9, 0, 0⟩⟩], [], [], [], none, none⟩],
         [⟨"u2", "alice", "1234", Role.user, none⟩], []⟩ "alice").1 "alice" "alice"
      = ((register_player ⟨1, 10, 0, 0⟩
          ⟨[⟨⟨2, 19, 0, 0⟩, [⟨"u1", "alice", ⟨1, 9, 0, 0⟩⟩], [], [], [], none, none⟩],
           [⟨"u2", "alice", "1234", Role.user, none⟩], []⟩ "alice").1,
         .error .forbidden) := by
  decide

end SoccerSlotManager
